import Mathlib

/-!
# The 3D scene demo of `CG/js/main-script.js`: state, event handlers and per-frame update

The script keeps its state in module-level variables (flags, the active camera, the active
shading mode, the list of registered meshes, the lights, the pressed-key set) and mutates them
from three browser callbacks (`keydown`, `keyup`, `resize`), from the animation-frame callback
`update(timeDelta)` and from the continuation of the asynchronous heightmap load.

The embedding is shallow: the module-level variables become the fields of `State`, every
function of the script that touches them becomes a function on `State`, and a JavaScript
`TypeError` is `none`.  Numbers are elements of an arbitrary linearly ordered field `α`
(the theorems hold for the reals in particular); the numeric library functions the script
calls (`Math.sqrt`, `Math.PI`, the floating `%`) are the fields of `JsMath`, and `Math.sin`
and `Math.cos` those of `JsTrig`.

The pure computations of the scene construction are embedded as functions of their inputs:
the heightmap sampling loops of `createSoilGeometry` and of `generateTerrain` in `terrain.js`,
the placement `createTree` computes from its random draw, and the five hardcoded house
geometries passed to `createHouseGeometry`.  Where the rounding of the script's numbers
matters (the heights stored in the `Float32` position attribute, the positions `createTree`
computes in doubles), the numbers are rationals and every operation is followed by
`roundToBits`, the rounding to nearest of IEEE 754.
-/

namespace CG

/-! ## Numbers and vectors -/

/-- Numeric functions of the host that the script calls: `Math.sqrt`, `Math.PI` and the
remainder operator `%` on numbers. -/
structure JsMath (α : Type) where
  sqrt : α → α
  PI : α
  fmod : α → α → α

/-- A `THREE.Vector3`. -/
structure Vector3 (α : Type) where
  x : α
  y : α
  z : α

namespace Vector3

variable {α : Type} [LinearOrderedField α]

/-- The constructor call `new THREE.Vector3()`: the zero vector. -/
def zero : Vector3 α := ⟨0, 0, 0⟩

/-- The method `Vector3.lengthSq()`. -/
def lengthSq (v : Vector3 α) : α := v.x * v.x + v.y * v.y + v.z * v.z

/-- The method `Vector3.length()`: `Math.sqrt` of the squared length. -/
def length (M : JsMath α) (v : Vector3 α) : α := M.sqrt (lengthSq v)

/-- The method `Vector3.multiplyScalar(s)`. -/
def multiplyScalar (v : Vector3 α) (s : α) : Vector3 α := ⟨v.x * s, v.y * s, v.z * s⟩

/-- The method `Vector3.divideScalar(s)`, which the library defines as `multiplyScalar(1 / s)`. -/
def divideScalar (v : Vector3 α) (s : α) : Vector3 α := multiplyScalar v (1 / s)

/-- The method `Vector3.normalize()`, which the library defines as `divideScalar(length() || 1)`. -/
def normalize (M : JsMath α) (v : Vector3 α) : Vector3 α :=
  divideScalar v (if length M v = 0 then 1 else length M v)

/-- The method `Vector3.add(w)`. -/
def add (v w : Vector3 α) : Vector3 α := ⟨v.x + w.x, v.y + w.y, v.z + w.z⟩

/-- The method `Vector3.sub(w)`. -/
def sub (v w : Vector3 α) : Vector3 α := ⟨v.x - w.x, v.y - w.y, v.z - w.z⟩

end Vector3

/-! ## Constants and tables -/

/-- The constant `UFOSPHERELIGHT_COUNT`. -/
def UFOSPHERELIGHT_COUNT : Nat := 8

/-- The constant `UFO_LINEAR_VEL`. -/
def UFO_LINEAR_VEL {α : Type} [LinearOrderedField α] : α := 8

/-- The constant `UFO_ANGULAR_VEL = (2 * Math.PI) / 8`. -/
def UFO_ANGULAR_VEL {α : Type} [LinearOrderedField α] (M : JsMath α) : α := (2 * M.PI) / 8

/-- The camera objects of the page: the two module constants `ORBITAL_CAMERA` and
`FIXED_CAMERA`, and the camera `renderer.xr.getCamera()` returns. -/
inductive CameraRef where
  | orbital
  | fixed
  | xr
  deriving DecidableEq, Repr

/-- The constant `ORBITAL_CAMERA`. -/
def ORBITAL_CAMERA : CameraRef := CameraRef.orbital

/-- The constant `FIXED_CAMERA`. -/
def FIXED_CAMERA : CameraRef := CameraRef.fixed

/-- A material object: the one stored at `MATERIAL[name][mode]`, or the fresh
`MeshBasicMaterial` the `THREE.Mesh` constructor substitutes for an `undefined` argument. -/
inductive Material where
  | table (name mode : String)
  | fallback
  deriving DecidableEq, Repr

/-- A geometry object: the one stored at `GEOMETRY[name]`, or the empty `BufferGeometry` the
`THREE.Mesh` constructor substitutes for an `undefined` argument. -/
inductive Geometry where
  | table (name : String)
  | fallback
  deriving DecidableEq, Repr

/-- The keys of the frozen `GEOMETRY` object, in source order. -/
def GEOMETRY_KEYS : List String :=
  ["dome", "soil", "moon", "ufoDisc", "ufoCockpit", "ufoLight", "ufoSphereLight",
   "houseWalls", "houseFrames", "houseDoor", "houseRoof", "houseWindows",
   "treeFirstBranch", "treeSecondBranch", "treeCanopy"]

/-- The lookup `GEOMETRY[name]`; `none` is `undefined`. -/
def GEOMETRY (name : String) : Option Geometry :=
  if name ∈ GEOMETRY_KEYS then some (Geometry.table name) else none

/-- The four keys every entry of `MATERIAL` has, in source order. -/
def SHADING_MODES : List String := ["basic", "gouraud", "phong", "toon"]

/-- One entry of `MATERIAL`: an object with the keys `basic`, `gouraud`, `phong`, `toon`,
each holding a material object of its own. -/
def materialEntry (name : String) : List (String × Material) :=
  SHADING_MODES.map fun mode => (mode, Material.table name mode)

/-- The keys of the frozen `MATERIAL` object, in source order. -/
def MATERIAL_KEYS : List String :=
  ["moon", "ufoDisc", "ufoCockpit", "ufoLight", "ufoSphereLight", "houseWalls", "houseRoof",
   "houseFrames", "houseWindows", "houseDoor", "treeFirstBranch", "treeSecondBranch",
   "treeCanopy"]

/-- The lookup `MATERIAL[name]`; `none` is `undefined`. -/
def MATERIAL (name : String) : Option (List (String × Material)) :=
  if name ∈ MATERIAL_KEYS then some (materialEntry name) else none

/-! ## State -/

/-- A mesh registered in `meshes` by `createNamedMesh`: `userData.name`, `userData.materials`,
its geometry, its current `material` (`none` is `undefined`) and the group it was added to. -/
structure Mesh where
  name : String
  materials : List (String × Material)
  geometry : Geometry
  material : Option Material
  parent : String
  deriving DecidableEq, Repr

/-- A textured mesh (`sky` or `soil`): the texture its own material maps (`material.map`,
textures are numbered in order of creation) and, for each child mesh, the texture that
child's material maps. -/
structure TexturedMesh where
  map : Option Nat
  children : List (Option Nat)
  deriving DecidableEq, Repr

/-- The module-level variables of the script, together with the parts of the browser
(`window.innerWidth`, `window.innerHeight`, `renderer.xr.isPresenting`, the renderer size)
and of the scene objects (camera aspects, light visibility, UFO position and rotation) that
the callbacks read or write.  `ufo`, `ufoLight` and `directionalLight` are represented by
their tracked fields, with the library defaults before their creation. -/
structure State (α : Type) where
  innerWidth : Nat
  innerHeight : Nat
  xrPresenting : Bool
  rendererSize : Nat × Nat
  activeCamera : CameraRef
  cameraAspect : CameraRef → α
  textureCount : Nat
  sky : Option TexturedMesh
  skyTexture : Option Nat
  soil : Option TexturedMesh
  soilTexture : Option Nat
  soilGeometry : Bool
  ufoPosition : Vector3 α
  ufoRotationY : α
  ufoLightVisible : Bool
  ufoSphereLights : List Bool
  meshes : List Mesh
  treeGroups : List (Vector3 α)
  updateProjectionMatrix : Bool
  toggleActiveCamera : Bool
  directionalLightVisible : Bool
  activeMaterial : String
  newMaterial : Bool
  directionalLightEnabled : Bool
  keysPressed : List String

variable {α : Type} [LinearOrderedField α]

/-- The module-level initialisers, evaluated in a window of the given size:
`createPerspectiveCamera` gives both cameras the aspect `innerWidth / innerHeight`; the
camera of the XR manager is built with the library default aspect `1`. -/
def globals (innerWidth innerHeight : Nat) : State α :=
  { innerWidth := innerWidth
    innerHeight := innerHeight
    xrPresenting := false
    rendererSize := (0, 0)
    activeCamera := ORBITAL_CAMERA
    cameraAspect := fun c =>
      if c = CameraRef.xr then 1 else (innerWidth : α) / (innerHeight : α)
    textureCount := 0
    sky := none
    skyTexture := none
    soil := none
    soilTexture := none
    soilGeometry := false
    ufoPosition := Vector3.zero
    ufoRotationY := 0
    ufoLightVisible := true
    ufoSphereLights := []
    meshes := []
    treeGroups := []
    updateProjectionMatrix := false
    toggleActiveCamera := false
    directionalLightVisible := true
    activeMaterial := "phong"
    newMaterial := false
    directionalLightEnabled := true
    keysPressed := [] }

/-! ## Scene construction -/

/-- The function `createNamedMesh(name, parent)`.  `MATERIAL[name]` being `undefined` makes
`materials[activeMaterial]` throw a `TypeError` (`none`); an `undefined` geometry or material
argument is replaced by the `THREE.Mesh` constructor's default.  The mesh is pushed onto
`meshes`. -/
def createNamedMesh (name parent : String) (s : State α) : Option (State α) :=
  match MATERIAL name with
  | none => none
  | some materials =>
    let mesh : Mesh :=
      { name := name
        materials := materials
        geometry := (GEOMETRY name).getD Geometry.fallback
        material := some ((materials.lookup s.activeMaterial).getD Material.fallback)
        parent := parent }
    some { s with meshes := s.meshes ++ [mesh] }

/-- The function `createSkyTexture()`: draws a fresh canvas and stores a new texture in
`skyTexture`. -/
def createSkyTexture (s : State α) : State α :=
  { s with skyTexture := some s.textureCount, textureCount := s.textureCount + 1 }

/-- The function `createSoilTexture()`: draws a fresh canvas and stores a new texture in
`soilTexture`. -/
def createSoilTexture (s : State α) : State α :=
  { s with soilTexture := some s.textureCount, textureCount := s.textureCount + 1 }

/-- The function `createSkyDome()`. -/
def createSkyDome (s : State α) : State α :=
  let s := createSkyTexture s
  { s with sky := some { map := s.skyTexture, children := [] } }

/-- The function `createLights()`: a new `DirectionalLight` is visible. -/
def createLights (s : State α) : State α :=
  { s with directionalLightVisible := true }

/-- The function `createMoon()`. -/
def createMoon (s : State α) : Option (State α) :=
  createNamedMesh "moon" "baseGroup" s

/-- One iteration of the loop of `createUfo`: a sphere mesh and a visible `PointLight`
pushed onto `ufoSphereLights`. -/
def createUfoSphereLight (s : State α) (_i : Nat) : Option (State α) := do
  let s ← createNamedMesh "ufoSphereLight" "sphereGroup" s
  pure { s with ufoSphereLights := s.ufoSphereLights ++ [true] }

/-- The function `createUfo()`. -/
def createUfo (s : State α) : Option (State α) := do
  let s := { s with ufoPosition := ⟨0, 25, 0⟩ }
  let s ← createNamedMesh "ufoDisc" "ufo" s
  let s ← createNamedMesh "ufoCockpit" "ufo" s
  let s ← createNamedMesh "ufoLight" "ufo" s
  let s := { s with ufoLightVisible := true }
  (List.range UFOSPHERELIGHT_COUNT).foldlM createUfoSphereLight s

/-- The function `createHouse()`. -/
def createHouse (s : State α) : Option (State α) := do
  let s ← createNamedMesh "houseWalls" "house" s
  let s ← createNamedMesh "houseFrames" "house" s
  let s ← createNamedMesh "houseDoor" "house" s
  let s ← createNamedMesh "houseRoof" "house" s
  createNamedMesh "houseWindows" "house" s

/-- The function `createScene()`, up to the first `await` of `createSoil()`: the soil is built later, by
`createSoil`, once the heightmap has loaded. -/
def createScene (s : State α) : Option (State α) := do
  let s := createSkyDome s
  let s := createLights s
  let s ← createMoon s
  let s ← createUfo s
  createHouse s

/-- The function `init()`: sizes the renderer, builds the scene and registers the event listeners.
`createCameras()` only changes a local `orbitControls`, the global one stays `null`. -/
def init (s : State α) : Option (State α) :=
  createScene { s with rendererSize := (s.innerWidth, s.innerHeight) }

/-- The mesh registrations of `createTree()`: two branches and two canopies. -/
def createTree (s : State α) : Option (State α) := do
  let s ← createNamedMesh "treeFirstBranch" "tree" s
  let s ← createNamedMesh "treeSecondBranch" "tree" s
  let s ← createNamedMesh "treeCanopy" "tree" s
  createNamedMesh "treeCanopy" "tree" s

/-- The six fixed `(x, z)` positions of `createTrees`. -/
def treePositions : List (α × α) :=
  [(-20, -40), (-5, -20), (15, -35), (-25, 5), (10, 20), (30, 5)]

/-- One iteration of the loop of `createTrees`: `intersect x z` is the first hit of the ray
cast downwards from `(x, 100, z)` onto the soil, `none` when `hits` is empty. -/
def createTreeAt (intersect : α → α → Option (Vector3 α)) (s : State α) (pos : α × α) :
    Option (State α) :=
  match intersect pos.1 pos.2 with
  | none => some s
  | some groundPt => do
    let s ← createTree s
    pure { s with treeGroups := s.treeGroups ++ [⟨groundPt.x, groundPt.y + 1 / 100, groundPt.z⟩] }

/-- The function `createTrees()`. -/
def createTrees (intersect : α → α → Option (Vector3 α)) (s : State α) : Option (State α) :=
  if s.soil.isNone then some s
  else treePositions.foldlM (createTreeAt intersect) s

/-- The function `createSoil()` from its `await` on: the heightmap has loaded, the soil mesh is built
with a fresh texture and the trees are planted. -/
def createSoil (intersect : α → α → Option (Vector3 α)) (s : State α) : Option (State α) :=
  let s := { s with soilGeometry := true }
  let s := createSoilTexture s
  let s := { s with soil := some { map := s.soilTexture, children := [] } }
  createTrees intersect s

/-! ## Update -/

/-- The function `refreshCameraParameters(camera)`. -/
def refreshCameraParameters (camera : CameraRef) (s : State α) : State α :=
  { s with cameraAspect := fun c =>
      if c = camera then (s.innerWidth : α) / (s.innerHeight : α) else s.cameraAspect c }

/-- The first block of `handleUfoMovement`: the `(X, Z)` direction vector built from the
arrow keys that are down. -/
def arrowDirection (keysPressed : List String) : Vector3 α :=
  let dir : Vector3 α := Vector3.zero
  let dir := if "ArrowUp" ∈ keysPressed then { dir with z := dir.z + 1 } else dir
  let dir := if "ArrowDown" ∈ keysPressed then { dir with z := dir.z - 1 } else dir
  let dir := if "ArrowLeft" ∈ keysPressed then { dir with x := dir.x + 1 } else dir
  let dir := if "ArrowRight" ∈ keysPressed then { dir with x := dir.x - 1 } else dir
  dir

/-- The function `handleUfoMovement(timeDelta)`. -/
def handleUfoMovement (M : JsMath α) (timeDelta : α) (s : State α) : State α :=
  let dir : Vector3 α := arrowDirection s.keysPressed
  if dir.lengthSq > 0 then
    let dir := dir.normalize M
    let step := UFO_LINEAR_VEL * timeDelta
    let dir := dir.multiplyScalar step
    { s with ufoPosition := s.ufoPosition.add dir }
  else s

/-- The material block of `update`. -/
def updateMaterials (s : State α) : State α :=
  if s.newMaterial then
    { s with
      newMaterial := false
      meshes := s.meshes.map fun mesh =>
        { mesh with material := mesh.materials.lookup s.activeMaterial } }
  else s

/-- The projection block of `update`; `renderer.xr.isPresenting` is cleared and restored
around `renderer.setSize`. -/
def updateProjection (s : State α) : State α :=
  if s.updateProjectionMatrix then
    let isXrPresenting := s.xrPresenting
    let s := { s with xrPresenting := false }
    let s := { s with updateProjectionMatrix := false }
    let s := { s with rendererSize := (s.innerWidth, s.innerHeight) }
    let s :=
      if s.innerHeight > 0 ∧ s.innerWidth > 0 then
        refreshCameraParameters (if isXrPresenting then CameraRef.xr else s.activeCamera) s
      else s
    { s with xrPresenting := isXrPresenting }
  else s

/-- The camera-toggle block of `update`. -/
def updateActiveCamera (s : State α) : State α :=
  if s.toggleActiveCamera then
    let s := { s with toggleActiveCamera := false }
    let s := { s with
      activeCamera := if s.activeCamera = ORBITAL_CAMERA then FIXED_CAMERA else ORBITAL_CAMERA }
    refreshCameraParameters s.activeCamera s
  else s

/-- The function `update(timeDelta)`.  The final `orbitControls.update()` is never reached: the global
`orbitControls` is `null`. -/
def update (M : JsMath α) (timeDelta : α) (s : State α) : State α :=
  let s := updateMaterials s
  let s := updateProjection s
  let s := updateActiveCamera s
  let s := { s with
    ufoRotationY := M.fmod (s.ufoRotationY + timeDelta * UFO_ANGULAR_VEL M) (2 * M.PI) }
  handleUfoMovement M timeDelta s

/-! ## Event handlers -/

/-- The method `String.prototype.toLowerCase()`.  Only the letters `A`-`Z` are mapped; the script
compares the result with `d s p 1 2 w q e r`, and no other character lower-cases to one of
those. -/
def toLowerCase (key : String) : String := String.mk (key.data.map Char.toLower)

/-- The function `onResize()`. -/
def onResize (s : State α) : State α :=
  { s with updateProjectionMatrix := true }

/-- The function `onKeyDownD()`. -/
def onKeyDownD (s : State α) : State α :=
  let s := { s with directionalLightEnabled := !s.directionalLightEnabled }
  { s with directionalLightVisible := s.directionalLightEnabled }

/-- The function `onKeyDownS()`. -/
def onKeyDownS (s : State α) : State α :=
  { s with ufoLightVisible := !s.ufoLightVisible }

/-- The function `onKeyDownP()`. -/
def onKeyDownP (s : State α) : State α :=
  { s with ufoSphereLights := s.ufoSphereLights.map fun visible => !visible }

/-- The function `onKeyDown1()`; `soil.clear()` throws a `TypeError` (`none`) while `soil` is
`undefined`. -/
def onKeyDown1 (s : State α) : Option (State α) :=
  match s.soil with
  | none => none
  | some soil =>
    let soil := { soil with children := [] }
    let s := createSoilTexture { s with soil := some soil }
    some { s with soil := some { soil with children := soil.children ++ [s.soilTexture] } }

/-- The function `onKeyDown2()`; `sky.clear()` throws a `TypeError` (`none`) while `sky` is
`undefined`. -/
def onKeyDown2 (s : State α) : Option (State α) :=
  match s.sky with
  | none => none
  | some sky =>
    let sky := { sky with children := [] }
    let s := createSkyTexture { s with sky := some sky }
    some { s with sky := some { sky with children := sky.children ++ [s.skyTexture] } }

/-- The call `keysPressed.add(key)` on a `Set`. -/
def keysAdd (key : String) (keys : List String) : List String :=
  if key ∈ keys then keys else keys ++ [key]

/-- The call `keysPressed.delete(key)` on a `Set`. -/
def keysDelete (key : String) (keys : List String) : List String :=
  keys.filter fun k => k ≠ key

/-- The function `onKeyDown(event)` with `event.key = key`.  A handler that throws leaves the state as it
was when the exception was raised: the key is already in `keysPressed`. -/
def onKeyDown (key : String) (s : State α) : State α :=
  let s := { s with keysPressed := keysAdd key s.keysPressed }
  match toLowerCase key with
  | "d" => onKeyDownD s
  | "s" => onKeyDownS s
  | "p" => onKeyDownP s
  | "1" => (onKeyDown1 s).getD s
  | "2" => (onKeyDown2 s).getD s
  | "w" => { s with activeMaterial := "phong", newMaterial := true }
  | "q" => { s with activeMaterial := "gouraud", newMaterial := true }
  | "e" => { s with activeMaterial := "toon", newMaterial := true }
  | "r" =>
    { s with
      activeMaterial := if s.activeMaterial = "basic" then "phong" else "basic"
      newMaterial := true }
  | _ => s

/-- The function `onKeyUp(event)` with `event.key = key`. -/
def onKeyUp (key : String) (s : State α) : State α :=
  { s with keysPressed := keysDelete key s.keysPressed }

/-! ## Runs -/

/-- What can happen to the page after `init()`: the three registered browser events (a
`resize` follows a change of the window size), an animation frame, the completion of the
heightmap load with the outcome of the six ray casts, and the start or end of an XR
session. -/
inductive Event (α : Type) where
  | keydown (key : String)
  | keyup (key : String)
  | resize (innerWidth innerHeight : Nat)
  | frame (timeDelta : α)
  | soilLoaded (intersect : α → α → Option (Vector3 α))
  | xrSession (presenting : Bool)

/-- The effect of one event.  The heightmap load completes at most once. -/
def step (M : JsMath α) (s : State α) : Event α → State α
  | Event.keydown key => onKeyDown key s
  | Event.keyup key => onKeyUp key s
  | Event.resize w h => onResize { s with innerWidth := w, innerHeight := h }
  | Event.frame timeDelta => update M timeDelta s
  | Event.soilLoaded intersect =>
    if s.soilGeometry then s else (createSoil intersect s).getD s
  | Event.xrSession presenting => { s with xrPresenting := presenting }

/-- The state after a sequence of events. -/
def run (M : JsMath α) (events : List (Event α)) (s : State α) : State α :=
  events.foldl (step M) s

/-- The state in which the page starts to receive events: `init()` applied to the module
initialisers, in a window of the given size. -/
def initialState (innerWidth innerHeight : Nat) : State α :=
  (init (globals innerWidth innerHeight)).getD (globals innerWidth innerHeight)

/-! ## Predicates of the specification -/

/-- The synchronisation predicate on materials: unless a swap is pending, every registered
mesh carries the entry of its own `userData.materials` for the active shading mode. -/
def MaterialsInSync (s : State α) : Prop :=
  s.newMaterial = false →
    ∀ mesh ∈ s.meshes, mesh.material = mesh.materials.lookup s.activeMaterial

/-- Every mesh of the subtree of a textured mesh (the mesh itself and its children) has a
material that maps the given texture. -/
def SubtreeShows (mesh : TexturedMesh) (texture : Option Nat) : Prop :=
  mesh.map = texture ∧ ∀ child ∈ mesh.children, child = texture

/-- The texture (if any) was created before the `count`-th texture. -/
def TextureBelow (count : Nat) (texture : Option Nat) : Prop :=
  ∀ t, texture = some t → t < count

/-- Every texture mapped in the subtree of the mesh (if any) was created before the
`count`-th texture. -/
def MeshBelow (count : Nat) (mesh : Option TexturedMesh) : Prop :=
  ∀ m, mesh = some m → TextureBelow count m.map ∧ ∀ child ∈ m.children, TextureBelow count child

/-- What holds in every state the page can be in after `init()`. -/
structure Inv (s : State α) : Prop where
  mode : s.activeMaterial ∈ SHADING_MODES
  camera : s.activeCamera = ORBITAL_CAMERA
  toggle : s.toggleActiveCamera = false
  table : ∀ mesh ∈ s.meshes, MATERIAL mesh.name = some mesh.materials
  sync : MaterialsInSync s
  lights : ∃ visible, s.ufoSphereLights = List.replicate UFOSPHERELIGHT_COUNT visible
  directional : s.directionalLightVisible = s.directionalLightEnabled
  sky : s.sky.isSome = true
  skyTexture : TextureBelow s.textureCount s.skyTexture
  soilTexture : TextureBelow s.textureCount s.soilTexture
  skyMesh : MeshBelow s.textureCount s.sky
  soilMesh : MeshBelow s.textureCount s.soil

/-- A rational stand-in for the numeric library, to run the model on concrete inputs: the
square root is rounded down on the numerator, `%` takes the sign of the dividend. -/
def ratMath : JsMath ℚ :=
  { sqrt := fun x => (Nat.sqrt (x.num.toNat * x.den) : ℚ) / (x.den : ℚ)
    PI := 355 / 113
    fmod := fun a b => a - b * (if 0 ≤ a / b then (⌊a / b⌋ : ℚ) else (⌈a / b⌉ : ℚ)) }

/-! ## The terrain heightmap -/

/-- The constant `RESOLUTION`. -/
def RESOLUTION : Nat := 256

/-- The number of vertices (`attributes.position.count`) of a
`THREE.PlaneGeometry(width, height, widthSegments, heightSegments)`. -/
def planeVertexCount (widthSegments heightSegments : Nat) : Nat :=
  (widthSegments + 1) * (heightSegments + 1)

/-- The index `pixelIndex` the sampling loops compute for vertex `i` of an image of the given
width: `x = i % width`, `y = Math.floor(i / width)`, `(y * width + x) * 4`. -/
def pixelIndex (width i : Nat) : Nat :=
  let x := i % width
  let y := i / width
  (y * width + x) * 4

/-- The number of binary digits of `n`, computed with `fuel` halvings (`fuel = n` always
suffices). -/
def bitLength : Nat → Nat → Nat
  | 0, _ => 0
  | fuel + 1, n => if n = 0 then 0 else bitLength fuel (n / 2) + 1

/-- The binary floating-point number with `p` significant bits nearest to `x`, ties to the
even significand: the rounding IEEE 754 applies to the exact result of every operation.  The
exponent is unbounded, so this is the IEEE result for every value in the normal range of the
format, the only ones the computations below produce. -/
def roundToBits (p : Nat) (x : ℚ) : ℚ :=
  if x = 0 then 0
  else
    let n := x.num.natAbs
    let d := x.den
    let e0 : Int := (bitLength n n : Int) - (bitLength d d : Int)
    let e : Int := if n * 2 ^ (-e0).toNat < d * 2 ^ e0.toNat then e0 - 1 else e0
    let s : Int := (p : Int) - 1 - e
    let scaledNum := n * 2 ^ s.toNat
    let scaledDen := d * 2 ^ (-s).toNat
    let q := scaledNum / scaledDen
    let r := scaledNum % scaledDen
    let m :=
      if 2 * r < scaledDen then q
      else if scaledDen < 2 * r then q + 1
      else if q % 2 = 0 then q else q + 1
    let magnitude : ℚ := (m : ℚ) * 2 ^ (-s).toNat / 2 ^ s.toNat
    if x < 0 then -magnitude else magnitude

/-- The double (53 significant bits) a JavaScript arithmetic operation returns when its
exact result is `x`. -/
def toDouble (x : ℚ) : ℚ := roundToBits 53 x

/-- The value a `Float32Array` holds after `x` is stored in it (`Math.fround`, 24
significant bits): the position attribute of a geometry is such an array. -/
def fround (x : ℚ) : ℚ := roundToBits 24 x

/-- The number `heightValue` that `createSoilGeometry` computes for a pixel of the given
grayscale, `grayscale / ((RESOLUTION / 2) - 1) * 5`, in doubles. -/
def soilHeightValue (grayscale : ℚ) : ℚ :=
  toDouble (toDouble (grayscale / toDouble (toDouble ((RESOLUTION : ℚ) / 2) - 1)) * 5)

/-- The sampling loop of `createSoilGeometry()`: the height that the position attribute of
`GEOMETRY.soil` holds for every vertex `i` after `vertices.setY(i, heightValue)`, from the
bytes of the `RESOLUTION` x `RESOLUTION` canvas.  Reading past the end of `imageData` gives
`undefined` (`none`). -/
def createSoilGeometry (imageData : List Nat) : List (Option ℚ) :=
  let width := RESOLUTION
  let count := planeVertexCount (RESOLUTION - 1) (RESOLUTION - 1)
  (List.range count).map fun i =>
    let grayscale := imageData[pixelIndex width i]?
    grayscale.map fun g : Nat => fround (soilHeightValue (g : ℚ))

/-- The number `heightValue` that `generateTerrain` of `terrain.js` computes for a pixel of
the given grayscale, `grayscale / 255 * 10`, in doubles. -/
def terrainHeightValue (grayscale : ℚ) : ℚ :=
  toDouble (toDouble (grayscale / 255) * 10)

/-- The sampling loop of `generateTerrain()` in `terrain.js`, for an image of the given
width and height: the plane has `width - 1` by `height - 1` segments, and the position
attribute holds the stored height of every vertex. -/
def generateTerrain (width height : Nat) (imageData : List Nat) : List (Option ℚ) :=
  let count := width * height
  (List.range count).map fun i =>
    let grayscale := imageData[pixelIndex width i]?
    grayscale.map fun g : Nat => fround (terrainHeightValue (g : ℚ))

/-! ## The tree -/

/-- The functions `Math.sin` and `Math.cos`. -/
structure JsTrig (α : Type) where
  sin : α → α
  cos : α → α

/-- The method `Vector3.applyAxisAngle(axis, angle)`: the quaternion of
`Quaternion.setFromAxisAngle` applied with `Vector3.applyQuaternion`. -/
def Vector3.applyAxisAngle (T : JsTrig α) (v axis : Vector3 α) (angle : α) : Vector3 α :=
  let halfAngle := angle / 2
  let s := T.sin halfAngle
  let qx := axis.x * s
  let qy := axis.y * s
  let qz := axis.z * s
  let qw := T.cos halfAngle
  let tx := 2 * (qy * v.z - qz * v.y)
  let ty := 2 * (qz * v.x - qx * v.z)
  let tz := 2 * (qx * v.y - qy * v.x)
  ⟨v.x + qw * tx + qy * tz - qz * ty,
   v.y + qw * ty + qz * tx - qx * tz,
   v.z + qw * tz + qx * ty - qy * tx⟩

/-- A `THREE.CylinderGeometry(radiusTop, radiusBottom, height, radialSegments)`: a cylinder
centred on the origin of its mesh, along the local Y axis. -/
structure CylinderGeometry (α : Type) where
  radiusTop : α
  radiusBottom : α
  height : α
  radialSegments : Nat

/-- The entry `GEOMETRY.treeFirstBranch`. -/
def treeFirstBranchGeometry : CylinderGeometry α := ⟨1 / 2, 1 / 2, 8, 12⟩

/-- The entry `GEOMETRY.treeSecondBranch`. -/
def treeSecondBranchGeometry : CylinderGeometry α := ⟨1 / 2, 1 / 2, 4, 12⟩

/-- The group `createTree()` returns: the constants and vectors it computes and the
transforms it gives its four meshes. -/
structure TreeGroup (α : Type) where
  branchLen1 : α
  branchLen2 : α
  tilt1 : α
  tilt2 : α
  upVec1 : Vector3 α
  upVec2 : Vector3 α
  halfway1 : Vector3 α
  firstBranchRotationZ : α
  firstBranchPosition : Vector3 α
  secondBranchRotationZ : α
  secondBranchPosition : Vector3 α
  canopy1Position : Vector3 α
  canopy2Position : Vector3 α

/-- The placement computed by `createTree()`, for the value `random` that its one call of
`Math.random()` returns. -/
def createTreeGroup (T : JsTrig α) (random : α) : TreeGroup α :=
  let branchLen1 : α := 8
  let tilt1 : α := 1 / 10 + random * (1 / 10)
  let tilt2 : α := tilt1 + 6 / 10
  let upVec1 : Vector3 α := Vector3.applyAxisAngle T ⟨0, 1, 0⟩ ⟨0, 0, 1⟩ tilt1
  let center1 := upVec1.multiplyScalar (branchLen1 / 2)
  let branchLen2 : α := 4
  let halfway1 := upVec1.multiplyScalar (branchLen1 * (1 / 2))
  let upVec2 : Vector3 α := Vector3.applyAxisAngle T ⟨0, 1, 0⟩ ⟨0, 0, 1⟩ (-tilt2)
  let center2 := halfway1.add (upVec2.multiplyScalar (branchLen2 / 2))
  let tip1Local := upVec1.multiplyScalar branchLen1
  let tip2Local := halfway1.add (upVec2.multiplyScalar branchLen2)
  { branchLen1 := branchLen1
    branchLen2 := branchLen2
    tilt1 := tilt1
    tilt2 := tilt2
    upVec1 := upVec1
    upVec2 := upVec2
    halfway1 := halfway1
    firstBranchRotationZ := tilt1
    firstBranchPosition := center1
    secondBranchRotationZ := -tilt2
    secondBranchPosition := center2
    canopy1Position := tip1Local
    canopy2Position := tip2Local }

/-- A rational stand-in for `Math.sin` and `Math.cos`, to run the model on concrete inputs:
the first terms of their power series. -/
def ratTrig : JsTrig ℚ :=
  { sin := fun x => x - x * x * x / 6
    cos := fun x => 1 - x * x / 2 }

/-- The vector whose components are those of `v` after `f`. -/
def Vector3.map (f : α → α) (v : Vector3 α) : Vector3 α := ⟨f v.x, f v.y, f v.z⟩

/-- The method `Vector3.applyAxisAngle(axis, angle)` with the result of every arithmetic
operation passed through `fl`, operations in the order three.js r160 (the version
`terrain.js` imports) performs them; `T` gives the values of `Math.sin` and `Math.cos`.
With `fl` the identity this is `Vector3.applyAxisAngle`. -/
def Vector3.applyAxisAngleIn (fl : α → α) (T : JsTrig α) (v axis : Vector3 α) (angle : α) :
    Vector3 α :=
  let halfAngle := fl (angle / 2)
  let s := T.sin halfAngle
  let qx := fl (axis.x * s)
  let qy := fl (axis.y * s)
  let qz := fl (axis.z * s)
  let qw := T.cos halfAngle
  let tx := fl (2 * fl (fl (qy * v.z) - fl (qz * v.y)))
  let ty := fl (2 * fl (fl (qz * v.x) - fl (qx * v.z)))
  let tz := fl (2 * fl (fl (qx * v.y) - fl (qy * v.x)))
  ⟨fl (fl (fl (v.x + fl (qw * tx)) + fl (qy * tz)) - fl (qz * ty)),
   fl (fl (fl (v.y + fl (qw * ty)) + fl (qz * tx)) - fl (qx * tz)),
   fl (fl (fl (v.z + fl (qw * tz)) + fl (qx * ty)) - fl (qy * tx))⟩

/-- The placement computed by `createTree()` with the numeric literals and the result of
every arithmetic operation passed through `fl`: with `fl` the identity this is
`createTreeGroup` (exact arithmetic), with `fl = toDouble` it is what the script computes
in doubles. -/
def createTreeGroupIn (fl : α → α) (T : JsTrig α) (random : α) : TreeGroup α :=
  let branchLen1 : α := 8
  let tilt1 : α := fl (fl (1 / 10) + fl (random * fl (1 / 10)))
  let tilt2 : α := fl (tilt1 + fl (6 / 10))
  let upVec1 : Vector3 α := Vector3.applyAxisAngleIn fl T ⟨0, 1, 0⟩ ⟨0, 0, 1⟩ tilt1
  let center1 := (upVec1.multiplyScalar (fl (branchLen1 / 2))).map fl
  let branchLen2 : α := 4
  let halfway1 := (upVec1.multiplyScalar (fl (branchLen1 * (1 / 2)))).map fl
  let upVec2 : Vector3 α := Vector3.applyAxisAngleIn fl T ⟨0, 1, 0⟩ ⟨0, 0, 1⟩ (-tilt2)
  let center2 := (halfway1.add ((upVec2.multiplyScalar (fl (branchLen2 / 2))).map fl)).map fl
  let tip1Local := (upVec1.multiplyScalar branchLen1).map fl
  let tip2Local := (halfway1.add ((upVec2.multiplyScalar branchLen2).map fl)).map fl
  { branchLen1 := branchLen1
    branchLen2 := branchLen2
    tilt1 := tilt1
    tilt2 := tilt2
    upVec1 := upVec1
    upVec2 := upVec2
    halfway1 := halfway1
    firstBranchRotationZ := tilt1
    firstBranchPosition := center1
    secondBranchRotationZ := -tilt2
    secondBranchPosition := center2
    canopy1Position := tip1Local
    canopy2Position := tip2Local }

/-- The doubles `Math.sin` and `Math.cos` return at the two half angles `createTree` reaches
when `Math.random()` returns `0.125` (`tilt1 = 0.1125`, `tilt2 = 0.7125`), the doubles
`0.05625` and `-0.35625`:
`Math.sin(0.05625) = 0.05622034160650188`, `Math.cos(0.05625) = 0.9984183858431536`,
`Math.sin(-0.35625) = -0.3487621514866476`, `Math.cos(-0.35625) = 0.9372112684397285`.
Other arguments do not occur for that draw. -/
def drawEighthTrig : JsTrig ℚ :=
  { sin := fun x =>
      if x = 8106479329266893 / 144115188075855872 then
        8102205104309883 / 144115188075855872
      else if x = -(6417629469002957 / 18014398509481984) then
        -(3141370190952397 / 9007199254740992)
      else 0
    cos := fun x =>
      if x = 8106479329266893 / 144115188075855872 then
        8992953340886157 / 9007199254740992
      else if x = -(6417629469002957 / 18014398509481984) then
        4220824319312591 / 4503599627370496
      else 1 }

/-- The point of the tree's frame at which a mesh with the given `position`, with
`rotation = (0, 0, rotationZ)` and unit scale shows the point `p` of its geometry: the
quaternion of `Quaternion.setFromEuler` (order `XYZ`), composed with the position by
`Matrix4.compose`, applied to `p`. -/
def meshPoint (T : JsTrig α) (position : Vector3 α) (rotationZ : α) (p : Vector3 α) :
    Vector3 α :=
  let c1 := T.cos (0 / 2)
  let c2 := T.cos (0 / 2)
  let c3 := T.cos (rotationZ / 2)
  let s1 := T.sin (0 / 2)
  let s2 := T.sin (0 / 2)
  let s3 := T.sin (rotationZ / 2)
  let x := s1 * c2 * c3 + c1 * s2 * s3
  let y := c1 * s2 * c3 - s1 * c2 * s3
  let z := c1 * c2 * s3 + s1 * s2 * c3
  let w := c1 * c2 * c3 - s1 * s2 * s3
  let x2 := x + x
  let y2 := y + y
  let z2 := z + z
  let xx := x * x2
  let xy := x * y2
  let xz := x * z2
  let yy := y * y2
  let yz := y * z2
  let zz := z * z2
  let wx := w * x2
  let wy := w * y2
  let wz := w * z2
  ⟨(1 - (yy + zz)) * p.x + (xy - wz) * p.y + (xz + wy) * p.z + position.x,
   (xy + wz) * p.x + (1 - (xx + zz)) * p.y + (yz - wx) * p.z + position.y,
   (xz - wy) * p.x + (yz + wx) * p.y + (1 - (xx + yy)) * p.z + position.z⟩

/-! ## The house geometries -/

/-- A `THREE.BufferGeometry` as `createHouseGeometry` builds it: the index buffer and the
flat `position` attribute (three coordinates per vertex). -/
structure BufferGeometry (α : Type) where
  index : List Nat
  position : List α

/-- The function `createHouseGeometry({ vertices, indexes, scale })`; a caller that leaves
`scale` out gets the default `1`. -/
def createHouseGeometry (vertices : List (Vector3 α)) (indexes : List (List Nat))
    (scale : α) : BufferGeometry α :=
  { index := indexes.flatMap fun triangle => triangle
    position :=
      (vertices.flatMap fun vertex => [vertex.x, vertex.y, vertex.z]).map fun coord =>
        coord * scale }

/-- The `vertices` list of `createHouseWallsGeometry()`, `v0` first. -/
def houseWallsVertices : List (Vector3 α) :=
  [
   ⟨0, 1 / 2, -8⟩, ⟨2, 1 / 2, -8⟩, ⟨4, 1 / 2, -8⟩, ⟨6, 1 / 2, -8⟩,
   ⟨8, 1 / 2, -8⟩, ⟨10, 1 / 2, -8⟩, ⟨0, 3 / 2, -8⟩, ⟨2, 3 / 2, -8⟩,
   ⟨4, 3 / 2, -8⟩, ⟨6, 3 / 2, -8⟩, ⟨8, 3 / 2, -8⟩, ⟨10, 3 / 2, -8⟩,
   ⟨0, 7 / 2, -8⟩, ⟨2, 7 / 2, -8⟩, ⟨4, 7 / 2, -8⟩, ⟨6, 7 / 2, -8⟩,
   ⟨8, 7 / 2, -8⟩, ⟨10, 7 / 2, -8⟩, ⟨0, 5, -8⟩, ⟨2, 5, -8⟩,
   ⟨4, 5, -8⟩, ⟨6, 5, -8⟩, ⟨8, 5, -8⟩, ⟨10, 5, -8⟩,
   ⟨0, 1 / 2, 0⟩, ⟨0, 1 / 2, -4⟩, ⟨0, 1 / 2, -8⟩, ⟨0, 5, 0⟩,
   ⟨0, 8, -4⟩, ⟨0, 5, -8⟩, ⟨10, 1 / 2, 0⟩, ⟨10, 8, -4⟩,
   ⟨10, 1 / 2, -8⟩, ⟨10, 5, 0⟩, ⟨10, 5, -8⟩, ⟨10, 1 / 2, -(5 / 2)⟩,
   ⟨10, 1 / 2, -(11 / 2)⟩, ⟨10, 7 / 2, -(5 / 2)⟩, ⟨10, 7 / 2, -(11 / 2)⟩, ⟨10, 4, -3⟩,
   ⟨10, 4, -5⟩, ⟨10, 6, -3⟩, ⟨10, 6, -5⟩, ⟨0, 1 / 2, 0⟩,
   ⟨0, 5, 0⟩, ⟨10, 1 / 2, 0⟩, ⟨10, 5, 0⟩
  ]

/-- The `indexes` list of `createHouseWallsGeometry()`. -/
def houseWallsIndexes : List (List Nat) :=
  [
   [0, 6, 7], [0, 7, 1], [1, 7, 8], [1, 8, 2], [2, 8, 9], [2, 9, 3],
   [3, 9, 10], [4, 3, 10], [4, 10, 11], [4, 11, 5], [7, 6, 13], [6, 12, 13],
   [14, 9, 8], [9, 14, 15], [10, 16, 11], [11, 16, 17], [13, 12, 19], [12, 18, 19],
   [13, 19, 14], [19, 20, 14], [14, 20, 15], [15, 20, 21], [15, 21, 16], [16, 21, 22],
   [16, 22, 17], [17, 22, 23], [26, 24, 27], [29, 26, 27], [27, 28, 29], [30, 35, 37],
   [30, 37, 33], [37, 39, 33], [39, 41, 33], [41, 31, 33], [41, 42, 31], [31, 42, 34],
   [34, 42, 40], [40, 39, 38], [39, 37, 38], [40, 38, 34], [38, 32, 34], [38, 36, 32],
   [46, 43, 45], [44, 43, 46]
  ]

/-- The function `createHouseWallsGeometry()`. -/
def createHouseWallsGeometry : BufferGeometry α :=
  createHouseGeometry houseWallsVertices houseWallsIndexes 1

/-- The `vertices` list of `createHouseFramesGeometry()`, `v0` first. -/
def houseFramesVertices : List (Vector3 α) :=
  [
   ⟨0, 0, -8⟩, ⟨0, 1 / 2, -8⟩, ⟨10, 0, -8⟩, ⟨10, 1 / 2, -8⟩,
   ⟨2, 3 / 2, -8⟩, ⟨2, 2, -8⟩, ⟨2, 3, -8⟩, ⟨2, 7 / 2, -8⟩,
   ⟨5 / 2, 2, -8⟩, ⟨5 / 2, 3, -8⟩, ⟨4, 3 / 2, -8⟩, ⟨4, 2, -8⟩,
   ⟨4, 3, -8⟩, ⟨4, 7 / 2, -8⟩, ⟨7 / 2, 2, -8⟩, ⟨7 / 2, 3, -8⟩,
   ⟨6, 3 / 2, -8⟩, ⟨6, 2, -8⟩, ⟨6, 3, -8⟩, ⟨6, 7 / 2, -8⟩,
   ⟨13 / 2, 2, -8⟩, ⟨13 / 2, 3, -8⟩, ⟨8, 3 / 2, -8⟩, ⟨8, 2, -8⟩,
   ⟨8, 3, -8⟩, ⟨8, 7 / 2, -8⟩, ⟨15 / 2, 2, -8⟩, ⟨15 / 2, 3, -8⟩,
   ⟨0, 0, 0⟩, ⟨0, 1 / 2, 0⟩, ⟨0, 0, -8⟩, ⟨0, 1 / 2, -8⟩,
   ⟨10, 0, 0⟩, ⟨10, 1 / 2, 0⟩, ⟨10, 0, -(5 / 2)⟩, ⟨10, 1 / 2, -(5 / 2)⟩,
   ⟨10, 0, -3⟩, ⟨10, 3, -3⟩, ⟨10, 3, -(5 / 2)⟩, ⟨10, 7 / 2, -(5 / 2)⟩,
   ⟨10, 7 / 2, -(11 / 2)⟩, ⟨10, 3, -5⟩, ⟨10, 3, -(11 / 2)⟩, ⟨10, 0, -5⟩,
   ⟨10, 0, -(11 / 2)⟩, ⟨10, 1 / 2, -(11 / 2)⟩, ⟨10, 0, -8⟩, ⟨10, 1 / 2, -8⟩,
   ⟨10, 4, -3⟩, ⟨10, 6, -3⟩, ⟨10, 4, -5⟩, ⟨10, 6, -5⟩,
   ⟨10, 9 / 2, -(7 / 2)⟩, ⟨10, 11 / 2, -(7 / 2)⟩, ⟨10, 9 / 2, -(9 / 2)⟩, ⟨10, 11 / 2, -(9 / 2)⟩,
   ⟨10, 11 / 2, -5⟩, ⟨10, 9 / 2, -5⟩, ⟨10, 11 / 2, -3⟩, ⟨10, 9 / 2, -3⟩,
   ⟨0, 0, 0⟩, ⟨0, 1 / 2, 0⟩, ⟨10, 0, 0⟩, ⟨10, 1 / 2, 0⟩
  ]

/-- The `indexes` list of `createHouseFramesGeometry()`. -/
def houseFramesIndexes : List (List Nat) :=
  [
   [0, 1, 2], [2, 1, 3], [4, 5, 11], [4, 11, 10], [6, 13, 12], [6, 7, 13],
   [12, 14, 15], [12, 11, 14], [6, 9, 5], [5, 9, 8], [16, 23, 22], [16, 17, 23],
   [18, 25, 24], [18, 19, 25], [18, 21, 17], [17, 21, 20], [24, 23, 27], [23, 26, 27],
   [28, 29, 30], [29, 31, 30], [33, 32, 34], [33, 34, 35], [34, 36, 38], [36, 37, 38],
   [38, 40, 39], [40, 38, 42], [42, 41, 43], [42, 43, 44], [45, 44, 46], [45, 46, 47],
   [48, 50, 57], [57, 59, 48], [49, 56, 51], [49, 58, 56], [58, 59, 52], [58, 52, 53],
   [57, 56, 55], [55, 54, 57], [61, 60, 62], [61, 62, 63]
  ]

/-- The function `createHouseFramesGeometry()`. -/
def createHouseFramesGeometry : BufferGeometry α :=
  createHouseGeometry houseFramesVertices houseFramesIndexes 1

/-- The `vertices` list of `createHouseDoorGeometry()`, `v0` first. -/
def houseDoorVertices : List (Vector3 α) :=
  [
   ⟨10, 0, -3⟩, ⟨10, 3, -3⟩, ⟨10, 0, -5⟩, ⟨10, 3, -5⟩
  ]

/-- The `indexes` list of `createHouseDoorGeometry()`. -/
def houseDoorIndexes : List (List Nat) :=
  [
   [0, 2, 3], [3, 1, 0]
  ]

/-- The function `createHouseDoorGeometry()`. -/
def createHouseDoorGeometry : BufferGeometry α :=
  createHouseGeometry houseDoorVertices houseDoorIndexes 1

/-- The `vertices` list of `createHouseRoofGeometry()`, `v0` first. -/
def houseRoofVertices : List (Vector3 α) :=
  [
   ⟨0, 5, -8⟩, ⟨10, 5, -8⟩, ⟨0, 8, -4⟩, ⟨10, 8, -4⟩,
   ⟨0, 8, -4⟩, ⟨10, 8, -4⟩, ⟨0, 5, 0⟩, ⟨10, 5, 0⟩
  ]

/-- The `indexes` list of `createHouseRoofGeometry()`. -/
def houseRoofIndexes : List (List Nat) :=
  [
   [0, 2, 3], [1, 0, 3], [4, 6, 7], [5, 4, 7]
  ]

/-- The function `createHouseRoofGeometry()`. -/
def createHouseRoofGeometry : BufferGeometry α :=
  createHouseGeometry houseRoofVertices houseRoofIndexes 1

/-- The `vertices` list of `createHouseWindowsGeometry()`, `v0` first. -/
def houseWindowsVertices : List (Vector3 α) :=
  [
   ⟨5 / 2, 2, -8⟩, ⟨5 / 2, 3, -8⟩, ⟨7 / 2, 2, -8⟩, ⟨7 / 2, 3, -8⟩,
   ⟨13 / 2, 2, -8⟩, ⟨13 / 2, 3, -8⟩, ⟨15 / 2, 2, -8⟩, ⟨15 / 2, 3, -8⟩,
   ⟨10, 9 / 2, -(7 / 2)⟩, ⟨10, 11 / 2, -(7 / 2)⟩, ⟨10, 9 / 2, -(9 / 2)⟩, ⟨10, 11 / 2, -(9 / 2)⟩
  ]

/-- The `indexes` list of `createHouseWindowsGeometry()`. -/
def houseWindowsIndexes : List (List Nat) :=
  [
   [0, 1, 2], [2, 1, 3], [4, 5, 6], [6, 5, 7], [9, 8, 10], [10, 11, 9]
  ]

/-- The function `createHouseWindowsGeometry()`. -/
def createHouseWindowsGeometry : BufferGeometry α :=
  createHouseGeometry houseWindowsVertices houseWindowsIndexes 1

/-! ## Further predicates of the specification -/

/-- An entry of `indexes` is a triangle of a geometry with `vertexCount` vertices: three
distinct vertex indices, each below `vertexCount`. -/
@[reducible] def IsTriangle (vertexCount : Nat) (triangle : List Nat) : Prop :=
  triangle.length = 3 ∧ triangle.Nodup ∧ ∀ i ∈ triangle, i < vertexCount

/-- A house geometry definition is well-formed: every entry of `indexes` is a triangle of
its vertices, and `createHouseGeometry` builds from it an index buffer of three entries per
triangle that only references existing vertices, and a position buffer of three coordinates
per vertex. -/
def HouseGeometryWellFormed (vertices : List (Vector3 α)) (indexes : List (List Nat)) : Prop :=
  (∀ triangle ∈ indexes, IsTriangle vertices.length triangle) ∧
  (createHouseGeometry vertices indexes 1).index.length = 3 * indexes.length ∧
  (∀ i ∈ (createHouseGeometry vertices indexes 1).index, i < vertices.length) ∧
  (createHouseGeometry vertices indexes 1).position.length = 3 * vertices.length

/-- Every registered mesh was created under a key of `MATERIAL`, has the geometry stored
under its own name in `GEOMETRY`, and carries one of the four materials stored under its
own name in `MATERIAL`: neither is `undefined` or a constructor default. -/
def MeshesDefined (s : State α) : Prop :=
  ∀ mesh ∈ s.meshes, mesh.name ∈ MATERIAL_KEYS ∧ mesh.geometry = Geometry.table mesh.name ∧
    ∃ mode ∈ SHADING_MODES, mesh.material = some (Material.table mesh.name mode)


/-! ## Auxiliary facts -/

/-- A property that holds at the start and is kept by every event holds after every run. -/
theorem run_induction {α : Type} [LinearOrderedField α] (M : JsMath α)
    (P : State α → Prop) (hstep : ∀ s e, P s → P (step M s e))
    (events : List (Event α)) (s : State α) (h0 : P s) : P (run M events s) := by
  induction events generalizing s with
  | nil => exact h0
  | cons e es ih => exact ih (step M s e) (hstep s e h0)

theorem materialEntry_lookup (name mode : String) (h : mode ∈ SHADING_MODES) :
    (materialEntry name).lookup mode = some (Material.table name mode) := by
  simp only [SHADING_MODES, List.mem_cons, List.mem_singleton, List.not_mem_nil, or_false] at h
  rcases h with h | h | h | h <;> subst h <;> rfl

theorem MATERIAL_eq_some {name : String} {materials : List (String × Material)}
    (h : MATERIAL name = some materials) : materials = materialEntry name := by
  unfold MATERIAL at h
  split at h
  · exact (Option.some.inj h).symm
  · exact absurd h (by simp)

/-- The shape of the state `createNamedMesh` returns. -/
theorem createNamedMesh_some {α : Type} {name parent : String} {s s' : State α}
    (h : createNamedMesh name parent s = some s') :
    ∃ mesh : Mesh, s' = { s with meshes := s.meshes ++ [mesh] } ∧ mesh.name = name ∧
      MATERIAL name = some mesh.materials ∧
      mesh.material = some ((mesh.materials.lookup s.activeMaterial).getD Material.fallback) := by
  unfold createNamedMesh at h
  split at h
  · exact absurd h (by simp)
  · rename_i materials hm
    exact ⟨_, (Option.some.inj h).symm, rfl, hm, rfl⟩

/-- The function `createNamedMesh` does not throw for a key of `MATERIAL`. -/
theorem createNamedMesh_isSome {α : Type} (name parent : String) (s : State α)
    (h : name ∈ MATERIAL_KEYS) : (createNamedMesh name parent s).isSome = true := by
  simp [createNamedMesh, MATERIAL, h]


/-- The invariant only reads the fields listed here. -/
theorem inv_of_eq {α : Type} {s s' : State α} (h : Inv s)
    (h1 : s'.activeMaterial = s.activeMaterial) (h2 : s'.newMaterial = s.newMaterial)
    (h3 : s'.activeCamera = s.activeCamera) (h4 : s'.toggleActiveCamera = s.toggleActiveCamera)
    (h5 : s'.meshes = s.meshes) (h6 : s'.ufoSphereLights = s.ufoSphereLights)
    (h7 : s'.directionalLightVisible = s.directionalLightVisible)
    (h8 : s'.directionalLightEnabled = s.directionalLightEnabled)
    (h9 : s'.sky = s.sky) (h10 : s'.soil = s.soil) (h11 : s'.skyTexture = s.skyTexture)
    (h12 : s'.soilTexture = s.soilTexture) (h13 : s'.textureCount = s.textureCount) :
    Inv s' where
  mode := h1 ▸ h.mode
  camera := h3 ▸ h.camera
  toggle := h4 ▸ h.toggle
  table := h5 ▸ h.table
  sync := by
    have := h.sync
    unfold MaterialsInSync at this ⊢
    rw [h1, h2, h5]; exact this
  lights := h6 ▸ h.lights
  directional := by rw [h7, h8]; exact h.directional
  sky := h9 ▸ h.sky
  skyTexture := by rw [h11, h13]; exact h.skyTexture
  soilTexture := by rw [h12, h13]; exact h.soilTexture
  skyMesh := by rw [h9, h13]; exact h.skyMesh
  soilMesh := by rw [h10, h13]; exact h.soilMesh

theorem textureBelow_mono {n m : Nat} {t : Option Nat} (h : TextureBelow n t) (hnm : n ≤ m) :
    TextureBelow m t := fun x hx => Nat.lt_of_lt_of_le (h x hx) hnm

theorem meshBelow_mono {n m : Nat} {t : Option TexturedMesh} (h : MeshBelow n t)
    (hnm : n ≤ m) : MeshBelow m t := fun x hx =>
  ⟨textureBelow_mono (h x hx).1 hnm, fun c hc => textureBelow_mono ((h x hx).2 c hc) hnm⟩

theorem textureBelow_fresh (n : Nat) : TextureBelow (n + 1) (some n) := fun x hx => by
  cases hx; exact Nat.lt_succ_self _

theorem inv_createNamedMesh {α : Type} {name parent : String} {s s' : State α} (h : Inv s)
    (hs : createNamedMesh name parent s = some s') : Inv s' := by
  obtain ⟨mesh, rfl, hname, htable, hmat⟩ := createNamedMesh_some hs
  have hlook : mesh.material = mesh.materials.lookup s.activeMaterial := by
    rw [hmat, MATERIAL_eq_some htable, materialEntry_lookup _ _ h.mode]; rfl
  exact
    { mode := h.mode
      camera := h.camera
      toggle := h.toggle
      table := fun m hm => by
        rcases List.mem_append.1 hm with hm | hm
        · exact h.table m hm
        · rw [List.mem_singleton.1 hm, hname]; exact htable
      sync := fun hn m hm => by
        rcases List.mem_append.1 hm with hm | hm
        · exact h.sync hn m hm
        · rw [List.mem_singleton.1 hm]; exact hlook
      lights := h.lights
      directional := h.directional
      sky := h.sky
      skyTexture := h.skyTexture
      soilTexture := h.soilTexture
      skyMesh := h.skyMesh
      soilMesh := h.soilMesh }


theorem init_isSome {α : Type} [LinearOrderedField α] (w h : Nat) :
    (init (globals w h : State α)).isSome = true := rfl

theorem inv_initialState {α : Type} [LinearOrderedField α] (w h : Nat) :
    Inv (initialState w h : State α) := by
  have hmeshes : (initialState w h : State α).meshes = (initialState 0 0 : State ℚ).meshes :=
    rfl
  exact
    { mode := by
        show "phong" ∈ SHADING_MODES
        decide
      camera := rfl
      toggle := rfl
      table := by
        rw [hmeshes]
        decide
      sync := by
        intro _
        show ∀ mesh ∈ (initialState w h : State α).meshes,
          mesh.material = mesh.materials.lookup "phong"
        rw [hmeshes]
        decide
      lights := ⟨true, rfl⟩
      directional := rfl
      sky := rfl
      skyTexture := by
        show TextureBelow 1 (some 0)
        exact textureBelow_fresh 0
      soilTexture := by
        show TextureBelow 1 none
        intro t ht
        cases ht
      skyMesh := by
        show MeshBelow 1 (some { map := some 0, children := [] })
        intro m hm
        cases hm
        exact ⟨textureBelow_fresh 0, fun c hc => by cases hc⟩
      soilMesh := by
        show MeshBelow 1 none
        intro m hm
        cases hm }


/-! ### The branches of `onKeyDown` -/

theorem onKeyDown_d {α : Type} (key : String) (s : State α) (h : toLowerCase key = "d") :
    onKeyDown key s = onKeyDownD { s with keysPressed := keysAdd key s.keysPressed } := by
  unfold onKeyDown
  simp only [h]

theorem onKeyDown_s {α : Type} (key : String) (s : State α) (h : toLowerCase key = "s") :
    onKeyDown key s = onKeyDownS { s with keysPressed := keysAdd key s.keysPressed } := by
  unfold onKeyDown
  simp only [h]

theorem onKeyDown_p {α : Type} (key : String) (s : State α) (h : toLowerCase key = "p") :
    onKeyDown key s = onKeyDownP { s with keysPressed := keysAdd key s.keysPressed } := by
  unfold onKeyDown
  simp only [h]

theorem onKeyDown_1 {α : Type} (key : String) (s : State α) (h : toLowerCase key = "1") :
    onKeyDown key s =
      (onKeyDown1 { s with keysPressed := keysAdd key s.keysPressed }).getD
        { s with keysPressed := keysAdd key s.keysPressed } := by
  unfold onKeyDown
  simp only [h]

theorem onKeyDown_2 {α : Type} (key : String) (s : State α) (h : toLowerCase key = "2") :
    onKeyDown key s =
      (onKeyDown2 { s with keysPressed := keysAdd key s.keysPressed }).getD
        { s with keysPressed := keysAdd key s.keysPressed } := by
  unfold onKeyDown
  simp only [h]

theorem onKeyDown_w {α : Type} (key : String) (s : State α) (h : toLowerCase key = "w") :
    onKeyDown key s =
      { s with
        keysPressed := keysAdd key s.keysPressed, activeMaterial := "phong"
        newMaterial := true } := by
  unfold onKeyDown
  simp only [h]

theorem onKeyDown_q {α : Type} (key : String) (s : State α) (h : toLowerCase key = "q") :
    onKeyDown key s =
      { s with
        keysPressed := keysAdd key s.keysPressed, activeMaterial := "gouraud"
        newMaterial := true } := by
  unfold onKeyDown
  simp only [h]

theorem onKeyDown_e {α : Type} (key : String) (s : State α) (h : toLowerCase key = "e") :
    onKeyDown key s =
      { s with
        keysPressed := keysAdd key s.keysPressed, activeMaterial := "toon"
        newMaterial := true } := by
  unfold onKeyDown
  simp only [h]

theorem onKeyDown_r {α : Type} (key : String) (s : State α) (h : toLowerCase key = "r") :
    onKeyDown key s =
      { s with
        keysPressed := keysAdd key s.keysPressed
        activeMaterial := if s.activeMaterial = "basic" then "phong" else "basic"
        newMaterial := true } := by
  unfold onKeyDown
  simp only [h]

theorem onKeyDown_other {α : Type} (key : String) (s : State α)
    (h : toLowerCase key ∉ ["d", "s", "p", "1", "2", "w", "q", "e", "r"]) :
    onKeyDown key s = { s with keysPressed := keysAdd key s.keysPressed } := by
  unfold onKeyDown
  simp only [List.mem_cons, List.mem_singleton, not_or, List.not_mem_nil, not_false_eq_true,
    and_true] at h
  obtain ⟨h1, h2, h3, h4, h5, h6, h7, h8, h9⟩ := h
  split <;> first | contradiction | rfl

/-- The lower-cased key is one of the nine case labels, or none of them. -/
theorem key_cases (key : String) :
    toLowerCase key = "d" ∨ toLowerCase key = "s" ∨ toLowerCase key = "p" ∨
    toLowerCase key = "1" ∨ toLowerCase key = "2" ∨ toLowerCase key = "w" ∨
    toLowerCase key = "q" ∨ toLowerCase key = "e" ∨ toLowerCase key = "r" ∨
    toLowerCase key ∉ ["d", "s", "p", "1", "2", "w", "q", "e", "r"] := by
  simp only [List.mem_cons, List.mem_singleton, List.not_mem_nil, or_false]
  tauto

theorem onKeyDown1_some {α : Type} {s s' : State α} (h : onKeyDown1 s = some s') :
    ∃ soil, s.soil = some soil ∧
      s' = { s with
        soil := some { map := soil.map, children := [some s.textureCount] }
        soilTexture := some s.textureCount
        textureCount := s.textureCount + 1 } := by
  unfold onKeyDown1 at h
  split at h
  · exact absurd h (by simp)
  · rename_i soil hsoil
    exact ⟨soil, hsoil, (Option.some.inj h).symm⟩

theorem onKeyDown2_some {α : Type} {s s' : State α} (h : onKeyDown2 s = some s') :
    ∃ sky, s.sky = some sky ∧
      s' = { s with
        sky := some { map := sky.map, children := [some s.textureCount] }
        skyTexture := some s.textureCount
        textureCount := s.textureCount + 1 } := by
  unfold onKeyDown2 at h
  split at h
  · exact absurd h (by simp)
  · rename_i sky hsky
    exact ⟨sky, hsky, (Option.some.inj h).symm⟩

theorem inv_onKeyDown1 {α : Type} {s s' : State α} (h : Inv s) (hs : onKeyDown1 s = some s') :
    Inv s' := by
  obtain ⟨soil, hsoil, rfl⟩ := onKeyDown1_some hs
  have hle : s.textureCount ≤ s.textureCount + 1 := Nat.le_succ _
  exact
    { mode := h.mode
      camera := h.camera
      toggle := h.toggle
      table := h.table
      sync := h.sync
      lights := h.lights
      directional := h.directional
      sky := h.sky
      skyTexture := textureBelow_mono h.skyTexture hle
      soilTexture := textureBelow_fresh _
      skyMesh := meshBelow_mono h.skyMesh hle
      soilMesh := fun m hm => by
        cases hm
        refine ⟨textureBelow_mono (h.soilMesh soil hsoil).1 hle, fun c hc => ?_⟩
        rw [List.mem_singleton.1 hc]
        exact textureBelow_fresh _ }

theorem inv_onKeyDown2 {α : Type} {s s' : State α} (h : Inv s) (hs : onKeyDown2 s = some s') :
    Inv s' := by
  obtain ⟨sky, hsky, rfl⟩ := onKeyDown2_some hs
  have hle : s.textureCount ≤ s.textureCount + 1 := Nat.le_succ _
  exact
    { mode := h.mode
      camera := h.camera
      toggle := h.toggle
      table := h.table
      sync := h.sync
      lights := h.lights
      directional := h.directional
      sky := rfl
      skyTexture := textureBelow_fresh _
      soilTexture := textureBelow_mono h.soilTexture hle
      skyMesh := fun m hm => by
        cases hm
        refine ⟨textureBelow_mono (h.skyMesh sky hsky).1 hle, fun c hc => ?_⟩
        rw [List.mem_singleton.1 hc]
        exact textureBelow_fresh _
      soilMesh := meshBelow_mono h.soilMesh hle }

theorem inv_keys {α : Type} {s : State α} (h : Inv s) (keys : List String) :
    Inv { s with keysPressed := keys } :=
  inv_of_eq h rfl rfl rfl rfl rfl rfl rfl rfl rfl rfl rfl rfl rfl

theorem inv_shading {α : Type} {s : State α} (h : Inv s) (mode : String)
    (hmode : mode ∈ SHADING_MODES) :
    Inv { s with activeMaterial := mode, newMaterial := true } :=
  { mode := hmode
    camera := h.camera
    toggle := h.toggle
    table := h.table
    sync := fun hn => by cases hn
    lights := h.lights
    directional := h.directional
    sky := h.sky
    skyTexture := h.skyTexture
    soilTexture := h.soilTexture
    skyMesh := h.skyMesh
    soilMesh := h.soilMesh }

theorem inv_onKeyDown {α : Type} {s : State α} (h : Inv s) (key : String) :
    Inv (onKeyDown key s) := by
  have hk := inv_keys h (keysAdd key s.keysPressed)
  rcases key_cases key with c | c | c | c | c | c | c | c | c | c
  · rw [onKeyDown_d key s c]
    exact
      { mode := h.mode, camera := h.camera, toggle := h.toggle, table := h.table
        sync := h.sync, lights := h.lights, directional := rfl, sky := h.sky
        skyTexture := h.skyTexture, soilTexture := h.soilTexture, skyMesh := h.skyMesh
        soilMesh := h.soilMesh }
  · rw [onKeyDown_s key s c]
    exact inv_of_eq h rfl rfl rfl rfl rfl rfl rfl rfl rfl rfl rfl rfl rfl
  · rw [onKeyDown_p key s c]
    obtain ⟨b, hb⟩ := h.lights
    exact
      { mode := h.mode, camera := h.camera, toggle := h.toggle, table := h.table
        sync := h.sync
        lights := ⟨!b, by
          show s.ufoSphereLights.map (fun visible => !visible) = _
          rw [hb, List.map_replicate]⟩
        directional := h.directional, sky := h.sky
        skyTexture := h.skyTexture, soilTexture := h.soilTexture, skyMesh := h.skyMesh
        soilMesh := h.soilMesh }
  · rw [onKeyDown_1 key s c]
    cases hr : onKeyDown1 { s with keysPressed := keysAdd key s.keysPressed } with
    | none => exact hk
    | some s' => exact inv_onKeyDown1 hk hr
  · rw [onKeyDown_2 key s c]
    cases hr : onKeyDown2 { s with keysPressed := keysAdd key s.keysPressed } with
    | none => exact hk
    | some s' => exact inv_onKeyDown2 hk hr
  · rw [onKeyDown_w key s c]
    exact inv_shading hk "phong" (by decide)
  · rw [onKeyDown_q key s c]
    exact inv_shading hk "gouraud" (by decide)
  · rw [onKeyDown_e key s c]
    exact inv_shading hk "toon" (by decide)
  · rw [onKeyDown_r key s c]
    refine inv_shading hk (if s.activeMaterial = "basic" then "phong" else "basic") ?_
    split <;> decide
  · rw [onKeyDown_other key s c]
    exact hk


/-! ### The blocks of `update` -/

theorem handleUfoMovement_eq {α : Type} [LinearOrderedField α] (M : JsMath α) (timeDelta : α)
    (s : State α) :
    handleUfoMovement M timeDelta s =
      { s with ufoPosition := (handleUfoMovement M timeDelta s).ufoPosition } := by
  unfold handleUfoMovement
  dsimp only
  split <;> rfl

theorem updateMaterials_eq {α : Type} (s : State α) :
    updateMaterials s =
      { s with
        newMaterial := false
        meshes := if s.newMaterial then
            s.meshes.map fun mesh =>
              { mesh with material := mesh.materials.lookup s.activeMaterial }
          else s.meshes } := by
  unfold updateMaterials
  split
  · rename_i h
    simp [h]
  · rename_i h
    have h' : s.newMaterial = false := by simpa using h
    cases s
    simp_all

theorem updateProjection_eq {α : Type} [LinearOrderedField α] (s : State α) :
    updateProjection s =
      { s with
        updateProjectionMatrix := false
        rendererSize := (updateProjection s).rendererSize
        cameraAspect := (updateProjection s).cameraAspect } := by
  unfold updateProjection
  split
  · dsimp only
    split <;> rfl
  · rename_i h
    have h' : s.updateProjectionMatrix = false := by simpa using h
    cases s
    simp_all

theorem updateActiveCamera_eq {α : Type} [LinearOrderedField α] (s : State α)
    (h : s.toggleActiveCamera = false) : updateActiveCamera s = s := by
  unfold updateActiveCamera
  simp [h]

theorem inv_updateMaterials {α : Type} {s : State α} (h : Inv s) : Inv (updateMaterials s) := by
  rw [updateMaterials_eq]
  exact
    { mode := h.mode
      camera := h.camera
      toggle := h.toggle
      table := fun m hm => by
        change m ∈ (if s.newMaterial then _ else _) at hm
        split at hm
        · obtain ⟨m0, hm0, rfl⟩ := List.mem_map.1 hm
          exact h.table m0 hm0
        · exact h.table m hm
      sync := fun _ m hm => by
        change m ∈ (if s.newMaterial then _ else _) at hm
        split at hm
        · obtain ⟨m0, hm0, rfl⟩ := List.mem_map.1 hm
          rfl
        · rename_i hn
          exact h.sync (by simpa using hn) m hm
      lights := h.lights
      directional := h.directional
      sky := h.sky
      skyTexture := h.skyTexture
      soilTexture := h.soilTexture
      skyMesh := h.skyMesh
      soilMesh := h.soilMesh }

theorem inv_update {α : Type} [LinearOrderedField α] (M : JsMath α) (timeDelta : α)
    {s : State α} (h : Inv s) : Inv (update M timeDelta s) := by
  unfold update
  dsimp only
  rw [handleUfoMovement_eq]
  have h1 := inv_updateMaterials h
  have h2 : Inv (updateProjection (updateMaterials s)) := by
    rw [updateProjection_eq]
    exact inv_of_eq h1 rfl rfl rfl rfl rfl rfl rfl rfl rfl rfl rfl rfl rfl
  have h3 : Inv (updateActiveCamera (updateProjection (updateMaterials s))) := by
    rw [updateActiveCamera_eq _ h2.toggle]
    exact h2
  exact inv_of_eq h3 rfl rfl rfl rfl rfl rfl rfl rfl rfl rfl rfl rfl rfl


/-! ### The continuation of the heightmap load -/

theorem inv_createTree {α : Type} {s : State α} (h : Inv s) :
    ∃ s', createTree s = some s' ∧ Inv s' := by
  unfold createTree
  obtain ⟨s1, e1⟩ := Option.isSome_iff_exists.1
    (createNamedMesh_isSome "treeFirstBranch" "tree" s (by decide))
  obtain ⟨s2, e2⟩ := Option.isSome_iff_exists.1
    (createNamedMesh_isSome "treeSecondBranch" "tree" s1 (by decide))
  obtain ⟨s3, e3⟩ := Option.isSome_iff_exists.1
    (createNamedMesh_isSome "treeCanopy" "tree" s2 (by decide))
  obtain ⟨s4, e4⟩ := Option.isSome_iff_exists.1
    (createNamedMesh_isSome "treeCanopy" "tree" s3 (by decide))
  refine ⟨s4, ?_, ?_⟩
  · simp [e1, e2, e3, e4]
  · exact inv_createNamedMesh (inv_createNamedMesh (inv_createNamedMesh
      (inv_createNamedMesh h e1) e2) e3) e4

theorem inv_createTreeAt {α : Type} [LinearOrderedField α]
    (intersect : α → α → Option (Vector3 α)) (pos : α × α) {s : State α} (h : Inv s) :
    ∃ s', createTreeAt intersect s pos = some s' ∧ Inv s' := by
  unfold createTreeAt
  split
  · exact ⟨s, rfl, h⟩
  · obtain ⟨s1, e1, h1⟩ := inv_createTree h
    refine ⟨_, by simp [e1]; rfl, ?_⟩
    exact inv_of_eq h1 rfl rfl rfl rfl rfl rfl rfl rfl rfl rfl rfl rfl rfl

theorem inv_foldlM_createTreeAt {α : Type} [LinearOrderedField α]
    (intersect : α → α → Option (Vector3 α)) (positions : List (α × α)) :
    ∀ {s : State α}, Inv s →
      ∃ s', positions.foldlM (createTreeAt intersect) s = some s' ∧ Inv s' := by
  induction positions with
  | nil => exact fun {s} h => ⟨s, rfl, h⟩
  | cons pos rest ih =>
    intro s h
    obtain ⟨s1, e1, h1⟩ := inv_createTreeAt intersect pos h
    obtain ⟨s2, e2, h2⟩ := ih h1
    exact ⟨s2, by simp [List.foldlM, e1, e2], h2⟩

theorem inv_createSoil {α : Type} [LinearOrderedField α]
    (intersect : α → α → Option (Vector3 α)) {s : State α} (h : Inv s) :
    ∃ s', createSoil intersect s = some s' ∧ Inv s' := by
  have hle : s.textureCount ≤ s.textureCount + 1 := Nat.le_succ _
  have h1 : Inv { s with
      soilGeometry := true
      soilTexture := some s.textureCount
      textureCount := s.textureCount + 1
      soil := some { map := some s.textureCount, children := [] } } :=
    { mode := h.mode, camera := h.camera, toggle := h.toggle, table := h.table
      sync := h.sync, lights := h.lights, directional := h.directional, sky := h.sky
      skyTexture := textureBelow_mono h.skyTexture hle
      soilTexture := textureBelow_fresh _
      skyMesh := meshBelow_mono h.skyMesh hle
      soilMesh := fun m hm => by
        cases hm
        exact ⟨textureBelow_fresh _, fun c hc => by cases hc⟩ }
  obtain ⟨s', e, h'⟩ := inv_foldlM_createTreeAt intersect treePositions h1
  exact ⟨s', by unfold createSoil createTrees; exact e, h'⟩

/-! ### Every event keeps the invariant -/

theorem inv_step {α : Type} [LinearOrderedField α] (M : JsMath α) (s : State α)
    (e : Event α) (h : Inv s) : Inv (step M s e) := by
  cases e with
  | keydown key => exact inv_onKeyDown h key
  | keyup key => exact inv_of_eq h rfl rfl rfl rfl rfl rfl rfl rfl rfl rfl rfl rfl rfl
  | resize w h' => exact inv_of_eq h rfl rfl rfl rfl rfl rfl rfl rfl rfl rfl rfl rfl rfl
  | frame timeDelta => exact inv_update M timeDelta h
  | soilLoaded intersect =>
    show Inv (if s.soilGeometry then s else (createSoil intersect s).getD s)
    split
    · exact h
    · obtain ⟨s', e, h'⟩ := inv_createSoil intersect h
      rw [e]
      exact h'
  | xrSession presenting =>
    exact inv_of_eq h rfl rfl rfl rfl rfl rfl rfl rfl rfl rfl rfl rfl rfl

/-- The invariant holds in every state the page reaches. -/
theorem inv_run {α : Type} [LinearOrderedField α] (M : JsMath α) (w h : Nat)
    (events : List (Event α)) : Inv (run M events (initialState w h)) :=
  run_induction M Inv (inv_step M) events _ (inv_initialState w h)


/-! ## The claims -/

/-- C1: after every finite sequence of events (key presses and releases, resizes, animation
frames, and also the completion of the heightmap load and XR session changes) applied to the
initial state, `activeMaterial` is one of `'basic'`, `'gouraud'`, `'phong'`, `'toon'` and
`activeCamera` is one of `ORBITAL_CAMERA`, `FIXED_CAMERA`. -/
theorem active_material_and_camera_invariant {α : Type} [LinearOrderedField α]
    (M : JsMath α) (w h : Nat) (events : List (Event α)) :
    (run M events (initialState w h)).activeMaterial ∈ ["basic", "gouraud", "phong", "toon"] ∧
    ((run M events (initialState w h)).activeCamera = ORBITAL_CAMERA ∨
      (run M events (initialState w h)).activeCamera = FIXED_CAMERA) :=
  ⟨(inv_run M w h events).mode, Or.inl (inv_run M w h events).camera⟩

/-- C2: for every prior state, a keydown whose key lower-cases to `w`, `q` or `e` sets
`activeMaterial` to `'phong'`, `'gouraud'` or `'toon'`, a keydown of `r` sets it to `'basic'`
unless it already is `'basic'` (then `'phong'`), each of them sets `newMaterial`, and a
keydown of any other key leaves `activeMaterial` unchanged. -/
theorem keydown_switches_shading {α : Type} (s : State α) (key : String) :
    (toLowerCase key = "w" →
      (onKeyDown key s).activeMaterial = "phong" ∧ (onKeyDown key s).newMaterial = true) ∧
    (toLowerCase key = "q" →
      (onKeyDown key s).activeMaterial = "gouraud" ∧ (onKeyDown key s).newMaterial = true) ∧
    (toLowerCase key = "e" →
      (onKeyDown key s).activeMaterial = "toon" ∧ (onKeyDown key s).newMaterial = true) ∧
    (toLowerCase key = "r" →
      (onKeyDown key s).activeMaterial = (if s.activeMaterial = "basic" then "phong" else "basic") ∧
      (onKeyDown key s).newMaterial = true) ∧
    (toLowerCase key ∉ ["w", "q", "e", "r"] →
      (onKeyDown key s).activeMaterial = s.activeMaterial) := by
  refine ⟨fun c => ?_, fun c => ?_, fun c => ?_, fun c => ?_, fun c => ?_⟩
  · rw [onKeyDown_w key s c]; exact ⟨rfl, rfl⟩
  · rw [onKeyDown_q key s c]; exact ⟨rfl, rfl⟩
  · rw [onKeyDown_e key s c]; exact ⟨rfl, rfl⟩
  · rw [onKeyDown_r key s c]; exact ⟨rfl, rfl⟩
  · simp only [List.mem_cons, List.mem_singleton, List.not_mem_nil, or_false, not_or] at c
    rcases key_cases key with k | k | k | k | k | k | k | k | k | k
    · rw [onKeyDown_d key s k]; rfl
    · rw [onKeyDown_s key s k]; rfl
    · rw [onKeyDown_p key s k]; rfl
    · rw [onKeyDown_1 key s k]
      cases hr : onKeyDown1 { s with keysPressed := keysAdd key s.keysPressed } with
      | none => rfl
      | some s' =>
        obtain ⟨soil, -, rfl⟩ := onKeyDown1_some hr
        rfl
    · rw [onKeyDown_2 key s k]
      cases hr : onKeyDown2 { s with keysPressed := keysAdd key s.keysPressed } with
      | none => rfl
      | some s' =>
        obtain ⟨sky, -, rfl⟩ := onKeyDown2_some hr
        rfl
    · exact absurd k c.1
    · exact absurd k c.2.1
    · exact absurd k c.2.2.1
    · exact absurd k c.2.2.2
    · rw [onKeyDown_other key s k]

/-- C2 at concrete inputs: in the initial state `W` selects `'phong'`, `r` selects `'basic'`,
a second `r` selects `'phong'` again, and `ArrowUp` leaves the mode alone. -/
theorem keydown_switches_shading_witness :
    (onKeyDown "W" (initialState 800 600 : State ℚ)).activeMaterial = "phong" ∧
    (onKeyDown "Q" (initialState 800 600 : State ℚ)).activeMaterial = "gouraud" ∧
    (onKeyDown "e" (initialState 800 600 : State ℚ)).activeMaterial = "toon" ∧
    (onKeyDown "r" (initialState 800 600 : State ℚ)).activeMaterial = "basic" ∧
    (onKeyDown "ArrowUp" (onKeyDown "r" (initialState 800 600 : State ℚ))).activeMaterial =
      "basic" :=
  ⟨((keydown_switches_shading (initialState 800 600 : State ℚ) "W").1 (by decide)).1,
   ((keydown_switches_shading (initialState 800 600 : State ℚ) "Q").2.1 (by decide)).1,
   ((keydown_switches_shading (initialState 800 600 : State ℚ) "e").2.2.1 (by decide)).1,
   ((keydown_switches_shading (initialState 800 600 : State ℚ) "r").2.2.2.1 (by decide)).1,
   ((keydown_switches_shading (onKeyDown "r" (initialState 800 600 : State ℚ))
      "ArrowUp").2.2.2.2 (by decide)).trans
     ((keydown_switches_shading (initialState 800 600 : State ℚ) "r").2.2.2.1 (by decide)).1⟩


/-- C3: the material synchronisation predicate holds initially and is preserved by
`createNamedMesh` (whenever the active mode is one of the four shading modes, as it always
is), by `onKeyDown` and by `update`; and after every `update()` call of a run `newMaterial`
is false and every registered mesh carries `MATERIAL[name][activeMaterial]`, its own variant
of the active shading mode. -/
theorem material_swap_reaches_every_mesh {α : Type} [LinearOrderedField α]
    (M : JsMath α) (w h : Nat) :
    MaterialsInSync (initialState w h : State α) ∧
    (∀ (s s' : State α) (name parent : String), s.activeMaterial ∈ SHADING_MODES →
      MaterialsInSync s → createNamedMesh name parent s = some s' → MaterialsInSync s') ∧
    (∀ (s : State α) (key : String), MaterialsInSync s → MaterialsInSync (onKeyDown key s)) ∧
    (∀ (s : State α) (timeDelta : α), MaterialsInSync s →
      MaterialsInSync (update M timeDelta s)) ∧
    (∀ (events : List (Event α)) (timeDelta : α),
      (update M timeDelta (run M events (initialState w h))).newMaterial = false ∧
      ∀ mesh ∈ (update M timeDelta (run M events (initialState w h))).meshes,
        mesh.material = some (Material.table mesh.name
          (update M timeDelta (run M events (initialState w h))).activeMaterial)) := by
  refine ⟨(inv_initialState w h).sync, ?_, ?_, ?_, ?_⟩
  · intro s s' name parent hmode hsync hs hn m hm
    obtain ⟨mesh, rfl, -, htable, hmat⟩ := createNamedMesh_some hs
    rcases List.mem_append.1 hm with hm | hm
    · exact hsync hn m hm
    · rw [List.mem_singleton.1 hm, hmat, MATERIAL_eq_some htable,
        materialEntry_lookup _ _ hmode]
      rfl
  · intro s key hsync
    rcases key_cases key with k | k | k | k | k | k | k | k | k | k
    · rw [onKeyDown_d key s k]; exact hsync
    · rw [onKeyDown_s key s k]; exact hsync
    · rw [onKeyDown_p key s k]; exact hsync
    · rw [onKeyDown_1 key s k]
      cases hr : onKeyDown1 { s with keysPressed := keysAdd key s.keysPressed } with
      | none => exact hsync
      | some s' =>
        obtain ⟨soil, -, rfl⟩ := onKeyDown1_some hr
        exact hsync
    · rw [onKeyDown_2 key s k]
      cases hr : onKeyDown2 { s with keysPressed := keysAdd key s.keysPressed } with
      | none => exact hsync
      | some s' =>
        obtain ⟨sky, -, rfl⟩ := onKeyDown2_some hr
        exact hsync
    · rw [onKeyDown_w key s k]; exact fun hn => by cases hn
    · rw [onKeyDown_q key s k]; exact fun hn => by cases hn
    · rw [onKeyDown_e key s k]; exact fun hn => by cases hn
    · rw [onKeyDown_r key s k]; exact fun hn => by cases hn
    · rw [onKeyDown_other key s k]; exact hsync
  · intro s timeDelta hsync
    have h1 : MaterialsInSync (updateMaterials s) := by
      rw [updateMaterials_eq]
      intro _ m hm
      change m ∈ (if s.newMaterial then _ else _) at hm
      split at hm
      · obtain ⟨m0, -, rfl⟩ := List.mem_map.1 hm
        rfl
      · rename_i hn
        exact hsync (by simpa using hn) m hm
    have h2 : MaterialsInSync (updateProjection (updateMaterials s)) := by
      rw [updateProjection_eq]
      exact h1
    have h3 : MaterialsInSync
        (updateActiveCamera (updateProjection (updateMaterials s))) := by
      unfold updateActiveCamera
      split
      · exact h2
      · exact h2
    unfold update
    dsimp only
    rw [handleUfoMovement_eq]
    exact h3
  · intro events timeDelta
    have hi := inv_update M timeDelta (inv_run M w h events)
    have hnew : (update M timeDelta (run M events (initialState w h))).newMaterial = false := by
      unfold update
      dsimp only
      rw [handleUfoMovement_eq]
      show (updateActiveCamera (updateProjection
        (updateMaterials (run M events (initialState w h))))).newMaterial = false
      rw [updateActiveCamera_eq _ (by
        rw [updateProjection_eq, updateMaterials_eq]
        exact (inv_run M w h events).toggle), updateProjection_eq, updateMaterials_eq]
    refine ⟨hnew, fun m hm => ?_⟩
    rw [hi.sync hnew m hm, MATERIAL_eq_some (hi.table m hm), materialEntry_lookup _ _ hi.mode]

/-- C3 at concrete inputs: the predicate holds after `r` and one frame from the initial
state, and after registering one more mesh in the initial state. -/
theorem material_swap_reaches_every_mesh_witness :
    MaterialsInSync (update ratMath 0 (onKeyDown "r" (initialState 800 600 : State ℚ))) ∧
    MaterialsInSync ((createNamedMesh "treeCanopy" "tree"
      (initialState 800 600 : State ℚ)).getD (initialState 800 600)) :=
  ⟨(material_swap_reaches_every_mesh ratMath 800 600).2.2.2.1 _ 0
      ((material_swap_reaches_every_mesh ratMath 800 600).2.2.1 _ "r"
        (material_swap_reaches_every_mesh ratMath 800 600).1),
   (material_swap_reaches_every_mesh ratMath 800 600).2.1 (initialState 800 600) _
      "treeCanopy" "tree" (by decide) (material_swap_reaches_every_mesh ratMath 800 600).1
      (by rfl)⟩


/-- C4, what the code does: no key toggles the camera.  Whatever events came before and
whichever key goes down, `toggleActiveCamera` stays false and the `update()` that follows
leaves `activeCamera` at `ORBITAL_CAMERA`: `onKeyDown` has no case that sets the flag. -/
theorem no_key_toggles_camera {α : Type} [LinearOrderedField α] (M : JsMath α) (w h : Nat)
    (events : List (Event α)) (key : String) (timeDelta : α) :
    (run M events (initialState w h)).activeCamera = ORBITAL_CAMERA ∧
    (onKeyDown key (run M events (initialState w h))).toggleActiveCamera = false ∧
    (update M timeDelta (onKeyDown key (run M events (initialState w h)))).activeCamera =
      ORBITAL_CAMERA :=
  ⟨(inv_run M w h events).camera,
   (inv_onKeyDown (inv_run M w h events) key).toggle,
   (inv_update M timeDelta (inv_onKeyDown (inv_run M w h events) key)).camera⟩

/-- C5: every keydown of `d` or `D` negates `directionalLightEnabled` and sets
`directionalLight.visible` to the new value, so the two agree after every press; and in
every state the page reaches, two consecutive presses restore the visibility that held
before them. -/
theorem keydown_d_toggles_directional_light {α : Type} [LinearOrderedField α]
    (M : JsMath α) (w h : Nat) :
    (∀ (s : State α) (key : String), key = "d" ∨ key = "D" →
      (onKeyDown key s).directionalLightEnabled = !s.directionalLightEnabled ∧
      (onKeyDown key s).directionalLightVisible = !s.directionalLightEnabled ∧
      (onKeyDown key s).directionalLightVisible = (onKeyDown key s).directionalLightEnabled) ∧
    (∀ (events : List (Event α)) (key1 key2 : String),
      key1 = "d" ∨ key1 = "D" → key2 = "d" ∨ key2 = "D" →
      (onKeyDown key2 (onKeyDown key1 (run M events (initialState w h)))).directionalLightVisible
        = (run M events (initialState w h)).directionalLightVisible) := by
  have hlow : ∀ key : String, key = "d" ∨ key = "D" → toLowerCase key = "d" := by
    rintro key (rfl | rfl) <;> rfl
  have hpress : ∀ (s : State α) (key : String), key = "d" ∨ key = "D" →
      (onKeyDown key s).directionalLightEnabled = !s.directionalLightEnabled ∧
      (onKeyDown key s).directionalLightVisible = !s.directionalLightEnabled ∧
      (onKeyDown key s).directionalLightVisible = (onKeyDown key s).directionalLightEnabled := by
    intro s key hk
    rw [onKeyDown_d key s (hlow key hk)]
    exact ⟨rfl, rfl, rfl⟩
  refine ⟨hpress, fun events key1 key2 h1 h2 => ?_⟩
  rw [(hpress _ key2 h2).2.1, (hpress _ key1 h1).1, Bool.not_not,
    (inv_run M w h events).directional]

/-- C5 at a concrete input: `d` then `D` in the initial state. -/
theorem keydown_d_toggles_directional_light_witness :
    (onKeyDown "d" (initialState 800 600 : State ℚ)).directionalLightVisible = false ∧
    (onKeyDown "D" (onKeyDown "d" (run ratMath [] (initialState 800 600)))).directionalLightVisible
      = (run ratMath [] (initialState 800 600 : State ℚ)).directionalLightVisible :=
  ⟨((keydown_d_toggles_directional_light ratMath 800 600).1 (initialState 800 600) "d"
      (Or.inl rfl)).2.1,
   (keydown_d_toggles_directional_light ratMath 800 600).2 [] "d" "D" (Or.inl rfl)
      (Or.inr rfl)⟩

theorem createNamedMesh_key {α : Type} (name parent : String) (s : State α)
    (h : name ∈ MATERIAL_KEYS) :
    ∃ mesh, createNamedMesh name parent s = some { s with meshes := s.meshes ++ [mesh] } := by
  obtain ⟨s', e⟩ := Option.isSome_iff_exists.1 (createNamedMesh_isSome name parent s h)
  obtain ⟨mesh, rfl, -⟩ := createNamedMesh_some e
  exact ⟨mesh, e⟩

theorem createUfoSphereLight_eq {α : Type} (s : State α) (i : Nat) :
    ∃ s', createUfoSphereLight s i = some s' ∧
      s'.ufoSphereLights = s.ufoSphereLights ++ [true] ∧
      s'.ufoLightVisible = s.ufoLightVisible ∧
      s'.directionalLightVisible = s.directionalLightVisible := by
  obtain ⟨mesh, e⟩ := createNamedMesh_key "ufoSphereLight" "sphereGroup" s (by decide)
  refine ⟨{ s with meshes := s.meshes ++ [mesh], ufoSphereLights := s.ufoSphereLights ++ [true] },
    ?_, rfl, rfl, rfl⟩
  unfold createUfoSphereLight
  simp [e]

theorem foldlM_createUfoSphereLight {α : Type} (indices : List Nat) :
    ∀ s : State α, ∃ s', indices.foldlM createUfoSphereLight s = some s' ∧
      s'.ufoSphereLights = s.ufoSphereLights ++ List.replicate indices.length true := by
  induction indices with
  | nil => exact fun s => ⟨s, rfl, by simp⟩
  | cons i rest ih =>
    intro s
    obtain ⟨s1, e1, l1, -⟩ := createUfoSphereLight_eq s i
    obtain ⟨s2, e2, l2⟩ := ih s1
    refine ⟨s2, by simp [List.foldlM, e1, e2], ?_⟩
    rw [l2, l1, List.length_cons, List.replicate_succ, List.append_assoc]
    rfl

/-- The function `createUfo` appends `UFOSPHERELIGHT_COUNT` visible lights to `ufoSphereLights`. -/
theorem createUfo_lights {α : Type} [LinearOrderedField α] (s : State α) :
    ∃ s', createUfo s = some s' ∧
      s'.ufoSphereLights = s.ufoSphereLights ++ List.replicate UFOSPHERELIGHT_COUNT true := by
  obtain ⟨m1, e1⟩ := createNamedMesh_key "ufoDisc" "ufo"
    { s with ufoPosition := ⟨0, 25, 0⟩ } (by decide)
  obtain ⟨m2, e2⟩ := createNamedMesh_key "ufoCockpit" "ufo"
    { s with ufoPosition := ⟨0, 25, 0⟩, meshes := s.meshes ++ [m1] } (by decide)
  obtain ⟨m3, e3⟩ := createNamedMesh_key "ufoLight" "ufo"
    { s with ufoPosition := ⟨0, 25, 0⟩, meshes := s.meshes ++ [m1] ++ [m2] } (by decide)
  obtain ⟨s', e, l⟩ := foldlM_createUfoSphereLight (List.range UFOSPHERELIGHT_COUNT)
    { s with
      ufoPosition := ⟨0, 25, 0⟩, meshes := s.meshes ++ [m1] ++ [m2] ++ [m3]
      ufoLightVisible := true }
  refine ⟨s', ?_, by rw [l, List.length_range]⟩
  unfold createUfo
  simp only [Option.bind_eq_bind, Option.pure_def]
  erw [e1]
  simp only [Option.some_bind]
  erw [e2]
  simp only [Option.some_bind]
  erw [e3]
  simp only [Option.some_bind]
  exact e


/-- C6: `createUfo` fills the empty list `ufoSphereLights` with exactly
`UFOSPHERELIGHT_COUNT = 8` lights; every keydown of `p` negates the visibility of every one
of them and changes neither the spotlight's nor the directional light's visibility; and in
every state the page reaches there are eight point lights, all with the same visibility. -/
theorem keydown_p_toggles_point_lights {α : Type} [LinearOrderedField α]
    (M : JsMath α) (w h : Nat) :
    UFOSPHERELIGHT_COUNT = 8 ∧
    (∀ s s' : State α, s.ufoSphereLights = [] → createUfo s = some s' →
      s'.ufoSphereLights.length = UFOSPHERELIGHT_COUNT) ∧
    (∀ (s : State α) (key : String), toLowerCase key = "p" →
      (onKeyDown key s).ufoSphereLights = s.ufoSphereLights.map (fun visible => !visible) ∧
      (onKeyDown key s).ufoLightVisible = s.ufoLightVisible ∧
      (onKeyDown key s).directionalLightVisible = s.directionalLightVisible) ∧
    (∀ events : List (Event α),
      (run M events (initialState w h)).ufoSphereLights.length = 8 ∧
      ∀ a ∈ (run M events (initialState w h)).ufoSphereLights,
        ∀ b ∈ (run M events (initialState w h)).ufoSphereLights, a = b) := by
  refine ⟨rfl, ?_, ?_, ?_⟩
  · intro s s' hnil hs
    obtain ⟨s1, e1, l1⟩ := createUfo_lights s
    rw [hs] at e1
    cases e1
    rw [l1, hnil]
    simp
  · intro s key hk
    rw [onKeyDown_p key s hk]
    exact ⟨rfl, rfl, rfl⟩
  · intro events
    obtain ⟨b, hb⟩ := (inv_run M w h events).lights
    rw [hb]
    refine ⟨by simp [UFOSPHERELIGHT_COUNT], fun a ha c hc => ?_⟩
    rw [(List.mem_replicate.1 ha).2, (List.mem_replicate.1 hc).2]

/-- C6 at concrete inputs: `createUfo` on the module initialisers, and `p` in the initial
state, which switches all eight lights off. -/
theorem keydown_p_toggles_point_lights_witness :
    ((createUfo (globals 800 600 : State ℚ)).getD (globals 800 600)).ufoSphereLights.length
      = UFOSPHERELIGHT_COUNT ∧
    (onKeyDown "p" (initialState 800 600 : State ℚ)).ufoSphereLights =
      [false, false, false, false, false, false, false, false] :=
  ⟨(keydown_p_toggles_point_lights ratMath 800 600).2.1 (globals 800 600) _ rfl (by rfl),
   ((keydown_p_toggles_point_lights ratMath 800 600).2.2.1 (initialState 800 600) "p"
      (by decide)).1⟩


/-- C7 as stated fails: with the soil loaded (texture 1, the sky has texture 0), a keydown
of `1` makes `soilTexture` the new texture 2 and gives the soil one child that maps it, but
the soil mesh itself still maps texture 1, so not every mesh of the soil's subtree shows the
new `soilTexture`. -/
theorem keydown_1_soil_mesh_keeps_old_texture :
    (onKeyDown "1" (run ratMath [Event.soilLoaded fun x z => some ⟨x, 0, z⟩]
      (initialState 800 600 : State ℚ))).soilTexture = some 2 ∧
    (onKeyDown "1" (run ratMath [Event.soilLoaded fun x z => some ⟨x, 0, z⟩]
      (initialState 800 600 : State ℚ))).soil = some { map := some 1, children := [some 2] } ∧
    ¬ SubtreeShows { map := some 1, children := [some 2] }
      (onKeyDown "1" (run ratMath [Event.soilLoaded fun x z => some ⟨x, 0, z⟩]
        (initialState 800 600 : State ℚ))).soilTexture := by
  refine ⟨rfl, rfl, ?_⟩
  rintro ⟨hmap, -⟩
  exact absurd hmap (by decide)

/-- C7 amended: in every state the page reaches in which the soil mesh exists, a keydown of
`1` stores a newly generated texture in `soilTexture` and leaves the soil with exactly one
child, whose material maps the new texture; the soil mesh itself keeps the map it had, which
is not the new texture.  Likewise for `2`, the sky mesh and `skyTexture`. -/
theorem keydown_1_2_regenerate_overlay {α : Type} [LinearOrderedField α] (M : JsMath α)
    (w h : Nat) (events : List (Event α)) (key : String) :
    (toLowerCase key = "1" → ∀ soil, (run M events (initialState w h)).soil = some soil →
      (onKeyDown key (run M events (initialState w h))).soilTexture =
        some (run M events (initialState w h)).textureCount ∧
      (onKeyDown key (run M events (initialState w h))).soilTexture ≠
        (run M events (initialState w h)).soilTexture ∧
      (onKeyDown key (run M events (initialState w h))).soil =
        some { map := soil.map
               children := [(onKeyDown key (run M events (initialState w h))).soilTexture] } ∧
      soil.map ≠ (onKeyDown key (run M events (initialState w h))).soilTexture) ∧
    (toLowerCase key = "2" → ∀ sky, (run M events (initialState w h)).sky = some sky →
      (onKeyDown key (run M events (initialState w h))).skyTexture =
        some (run M events (initialState w h)).textureCount ∧
      (onKeyDown key (run M events (initialState w h))).skyTexture ≠
        (run M events (initialState w h)).skyTexture ∧
      (onKeyDown key (run M events (initialState w h))).sky =
        some { map := sky.map
               children := [(onKeyDown key (run M events (initialState w h))).skyTexture] } ∧
      sky.map ≠ (onKeyDown key (run M events (initialState w h))).skyTexture) := by
  have hi := inv_run M w h events
  generalize run M events (initialState w h) = s at hi ⊢
  have fresh : ∀ t : Option Nat, TextureBelow s.textureCount t → t ≠ some s.textureCount :=
    fun t ht e => Nat.lt_irrefl _ (ht _ e)
  constructor
  · intro hk soil hsoil
    have e : onKeyDown1 { s with keysPressed := keysAdd key s.keysPressed } = some
        { s with
          keysPressed := keysAdd key s.keysPressed
          soil := some { map := soil.map, children := [some s.textureCount] }
          soilTexture := some s.textureCount
          textureCount := s.textureCount + 1 } := by
      unfold onKeyDown1
      simp only [hsoil]
      rfl
    rw [onKeyDown_1 key s hk, e]
    exact ⟨rfl, (fresh _ hi.soilTexture).symm, rfl, fresh _ (hi.soilMesh soil hsoil).1⟩
  · intro hk sky hsky
    have e : onKeyDown2 { s with keysPressed := keysAdd key s.keysPressed } = some
        { s with
          keysPressed := keysAdd key s.keysPressed
          sky := some { map := sky.map, children := [some s.textureCount] }
          skyTexture := some s.textureCount
          textureCount := s.textureCount + 1 } := by
      unfold onKeyDown2
      simp only [hsky]
      rfl
    rw [onKeyDown_2 key s hk, e]
    exact ⟨rfl, (fresh _ hi.skyTexture).symm, rfl, fresh _ (hi.skyMesh sky hsky).1⟩

/-- C7 amended, at concrete inputs: `1` after the heightmap has loaded and `2` in the initial
state. -/
theorem keydown_1_2_regenerate_overlay_witness :
    (onKeyDown "1" (run ratMath [Event.soilLoaded fun x z => some ⟨x, 0, z⟩]
      (initialState 800 600 : State ℚ))).soil =
        some { map := some 1
               children := [(onKeyDown "1" (run ratMath
                 [Event.soilLoaded fun x z => some ⟨x, 0, z⟩]
                 (initialState 800 600 : State ℚ))).soilTexture] } ∧
    (onKeyDown "2" (run ratMath [] (initialState 800 600 : State ℚ))).sky =
        some { map := some 0
               children := [(onKeyDown "2" (run ratMath []
                 (initialState 800 600 : State ℚ))).skyTexture] } :=
  ⟨((keydown_1_2_regenerate_overlay ratMath 800 600
      [Event.soilLoaded fun x z => some ⟨x, 0, z⟩] "1").1 (by decide)
      { map := some 1, children := [] } (by rfl)).2.2.1,
   ((keydown_1_2_regenerate_overlay ratMath 800 600 [] "2").2 (by decide)
      { map := some 0, children := [] } (by rfl)).2.2.1⟩


/-! ### The UFO movement -/

theorem arrowDirection_eq {α : Type} [LinearOrderedField α] (keys : List String) :
    (arrowDirection keys : Vector3 α) =
      ⟨(if "ArrowLeft" ∈ keys then 1 else 0) - (if "ArrowRight" ∈ keys then 1 else 0), 0,
       (if "ArrowUp" ∈ keys then 1 else 0) - (if "ArrowDown" ∈ keys then 1 else 0)⟩ := by
  unfold arrowDirection
  by_cases hu : "ArrowUp" ∈ keys <;> by_cases hd : "ArrowDown" ∈ keys <;>
    by_cases hl : "ArrowLeft" ∈ keys <;> by_cases hr : "ArrowRight" ∈ keys <;>
    simp [Vector3.zero, hu, hd, hl, hr]

theorem arrowDirection_y {α : Type} [LinearOrderedField α] (keys : List String) :
    (arrowDirection keys : Vector3 α).y = 0 := by
  rw [arrowDirection_eq]

/-- Opposing arrows cancel: the direction has squared length 0. -/
theorem arrowDirection_cancel {α : Type} [LinearOrderedField α] (keys : List String)
    (h : ("ArrowUp" ∈ keys ↔ "ArrowDown" ∈ keys) ∧ ("ArrowLeft" ∈ keys ↔ "ArrowRight" ∈ keys)) :
    (arrowDirection keys : Vector3 α).lengthSq = 0 := by
  rw [arrowDirection_eq]
  by_cases hu : "ArrowUp" ∈ keys <;> by_cases hd : "ArrowDown" ∈ keys <;>
    by_cases hl : "ArrowLeft" ∈ keys <;> by_cases hr : "ArrowRight" ∈ keys <;>
    simp [Vector3.lengthSq, hu, hd, hl, hr] at h ⊢

/-- A net direction has positive squared length. -/
theorem arrowDirection_net {α : Type} [LinearOrderedField α] (keys : List String)
    (h : ¬(("ArrowUp" ∈ keys ↔ "ArrowDown" ∈ keys) ∧
      ("ArrowLeft" ∈ keys ↔ "ArrowRight" ∈ keys))) :
    (arrowDirection keys : Vector3 α).lengthSq > 0 := by
  rw [arrowDirection_eq]
  by_cases hu : "ArrowUp" ∈ keys <;> by_cases hd : "ArrowDown" ∈ keys <;>
    by_cases hl : "ArrowLeft" ∈ keys <;> by_cases hr : "ArrowRight" ∈ keys <;>
    simp [Vector3.lengthSq, hu, hd, hl, hr] at h ⊢

/-- The direction only depends on which of the four arrows are down. -/
theorem arrowDirection_congr {α : Type} [LinearOrderedField α] (keys keys' : List String)
    (h : ∀ k ∈ ["ArrowUp", "ArrowDown", "ArrowLeft", "ArrowRight"], k ∈ keys' ↔ k ∈ keys) :
    (arrowDirection keys' : Vector3 α) = arrowDirection keys := by
  have hu := h "ArrowUp" (by decide)
  have hd := h "ArrowDown" (by decide)
  have hl := h "ArrowLeft" (by decide)
  have hr := h "ArrowRight" (by decide)
  rw [arrowDirection_eq, arrowDirection_eq]
  simp only [hu, hd, hl, hr]

theorem handleUfoMovement_position {α : Type} [LinearOrderedField α] (M : JsMath α)
    (timeDelta : α) (s : State α) :
    (handleUfoMovement M timeDelta s).ufoPosition =
      if (arrowDirection s.keysPressed : Vector3 α).lengthSq > 0 then
        s.ufoPosition.add
          (((arrowDirection s.keysPressed).normalize M).multiplyScalar
            (UFO_LINEAR_VEL * timeDelta))
      else s.ufoPosition := by
  unfold handleUfoMovement
  dsimp only
  split <;> rfl


/-- C8: over the reals, for every `timeDelta ≥ 0` and every set of pressed keys whose net
arrow direction is non-zero, `handleUfoMovement` displaces `ufo.position` by a vector of
Euclidean length exactly `UFO_LINEAR_VEL * timeDelta = 8 * timeDelta`. -/
theorem arrow_keys_move_at_constant_speed (M : JsMath ℝ) (hsqrt : ∀ x, M.sqrt x = Real.sqrt x)
    (timeDelta : ℝ) (hdelta : 0 ≤ timeDelta) (s : State ℝ)
    (hnet : ¬(("ArrowUp" ∈ s.keysPressed ↔ "ArrowDown" ∈ s.keysPressed) ∧
      ("ArrowLeft" ∈ s.keysPressed ↔ "ArrowRight" ∈ s.keysPressed))) :
    Real.sqrt (((handleUfoMovement M timeDelta s).ufoPosition.sub s.ufoPosition).lengthSq) =
      8 * timeDelta ∧
    Vector3.length M ((handleUfoMovement M timeDelta s).ufoPosition.sub s.ufoPosition) =
      UFO_LINEAR_VEL * timeDelta := by
  have hpos : (arrowDirection s.keysPressed : Vector3 ℝ).lengthSq > 0 :=
    arrowDirection_net s.keysPressed hnet
  have hl0 : Real.sqrt (arrowDirection s.keysPressed : Vector3 ℝ).lengthSq ≠ 0 :=
    (Real.sqrt_pos.2 hpos).ne'
  have hll := Real.mul_self_sqrt (le_of_lt hpos)
  have hstep : (0 : ℝ) ≤ 8 * timeDelta := by positivity
  have key : ((handleUfoMovement M timeDelta s).ufoPosition.sub s.ufoPosition).lengthSq =
      (8 * timeDelta) * (8 * timeDelta) := by
    rw [handleUfoMovement_position, if_pos hpos]
    generalize hd : (arrowDirection s.keysPressed : Vector3 ℝ) = dir at hl0 hll
    generalize hlen : Real.sqrt dir.lengthSq = l at hl0 hll
    simp only [Vector3.normalize, Vector3.length, hsqrt, hlen, if_neg hl0, Vector3.divideScalar,
      Vector3.multiplyScalar, Vector3.add, Vector3.sub, UFO_LINEAR_VEL]
    unfold Vector3.lengthSq at hll ⊢
    dsimp only
    field_simp
    rw [hll]
    ring
  refine ⟨by rw [key, Real.sqrt_mul_self hstep], ?_⟩
  rw [Vector3.length, hsqrt, key, Real.sqrt_mul_self hstep]
  rfl

/-- C8 at a concrete input: with `ArrowUp` and `ArrowLeft` down, one second moves the UFO by
a vector of length 8. -/
theorem arrow_keys_move_at_constant_speed_witness :
    Real.sqrt (((handleUfoMovement ⟨Real.sqrt, Real.pi, fun a _ => a⟩ 1
      (onKeyDown "ArrowLeft" (onKeyDown "ArrowUp"
        (initialState 800 600 : State ℝ)))).ufoPosition.sub
      (onKeyDown "ArrowLeft" (onKeyDown "ArrowUp"
        (initialState 800 600 : State ℝ))).ufoPosition).lengthSq) = 8 * 1 :=
  (arrow_keys_move_at_constant_speed ⟨Real.sqrt, Real.pi, fun a _ => a⟩ (fun _ => rfl) 1
    zero_le_one (onKeyDown "ArrowLeft" (onKeyDown "ArrowUp" (initialState 800 600)))
    (by decide)).1


theorem onKeyDown_keysPressed {α : Type} (key : String) (s : State α) :
    (onKeyDown key s).keysPressed = keysAdd key s.keysPressed ∧
    (onKeyDown key s).ufoPosition = s.ufoPosition := by
  rcases key_cases key with k | k | k | k | k | k | k | k | k | k
  · rw [onKeyDown_d key s k]; exact ⟨rfl, rfl⟩
  · rw [onKeyDown_s key s k]; exact ⟨rfl, rfl⟩
  · rw [onKeyDown_p key s k]; exact ⟨rfl, rfl⟩
  · rw [onKeyDown_1 key s k]
    cases hr : onKeyDown1 { s with keysPressed := keysAdd key s.keysPressed } with
    | none => exact ⟨rfl, rfl⟩
    | some s' =>
      obtain ⟨soil, -, rfl⟩ := onKeyDown1_some hr
      exact ⟨rfl, rfl⟩
  · rw [onKeyDown_2 key s k]
    cases hr : onKeyDown2 { s with keysPressed := keysAdd key s.keysPressed } with
    | none => exact ⟨rfl, rfl⟩
    | some s' =>
      obtain ⟨sky, -, rfl⟩ := onKeyDown2_some hr
      exact ⟨rfl, rfl⟩
  · rw [onKeyDown_w key s k]; exact ⟨rfl, rfl⟩
  · rw [onKeyDown_q key s k]; exact ⟨rfl, rfl⟩
  · rw [onKeyDown_e key s k]; exact ⟨rfl, rfl⟩
  · rw [onKeyDown_r key s k]; exact ⟨rfl, rfl⟩
  · rw [onKeyDown_other key s k]; exact ⟨rfl, rfl⟩

theorem mem_keysAdd (key k : String) (keys : List String) :
    k ∈ keysAdd key keys ↔ k = key ∨ k ∈ keys := by
  unfold keysAdd
  split
  · constructor
    · exact Or.inr
    · rintro (rfl | h)
      · assumption
      · exact h
  · simp [or_comm]

theorem mem_keysDelete (key k : String) (keys : List String) :
    k ∈ keysDelete key keys ↔ k ≠ key ∧ k ∈ keys := by
  unfold keysDelete
  simp [and_comm]

/-- C9: for every set of pressed keys and every `timeDelta`, `handleUfoMovement` leaves
`ufo.position.y` unchanged; when the arrows that are down cancel (none, or only opposing
pairs) the position is unchanged altogether; the position it computes only depends on which
of the four arrow keys are in `keysPressed`, so pressing or releasing any other key does not
affect it. -/
theorem ufo_moves_in_plane_and_opposing_keys_cancel {α : Type} [LinearOrderedField α]
    (M : JsMath α) (timeDelta : α) (s : State α) :
    (handleUfoMovement M timeDelta s).ufoPosition.y = s.ufoPosition.y ∧
    ((("ArrowUp" ∈ s.keysPressed ↔ "ArrowDown" ∈ s.keysPressed) ∧
      ("ArrowLeft" ∈ s.keysPressed ↔ "ArrowRight" ∈ s.keysPressed)) →
      (handleUfoMovement M timeDelta s).ufoPosition = s.ufoPosition) ∧
    (∀ s' : State α, s'.ufoPosition = s.ufoPosition →
      (∀ k ∈ ["ArrowUp", "ArrowDown", "ArrowLeft", "ArrowRight"],
        k ∈ s'.keysPressed ↔ k ∈ s.keysPressed) →
      (handleUfoMovement M timeDelta s').ufoPosition =
        (handleUfoMovement M timeDelta s).ufoPosition) ∧
    (∀ key : String, key ∉ ["ArrowUp", "ArrowDown", "ArrowLeft", "ArrowRight"] →
      (handleUfoMovement M timeDelta (onKeyDown key s)).ufoPosition =
        (handleUfoMovement M timeDelta s).ufoPosition ∧
      (handleUfoMovement M timeDelta (onKeyUp key s)).ufoPosition =
        (handleUfoMovement M timeDelta s).ufoPosition) := by
  have hcongr : ∀ s' : State α, s'.ufoPosition = s.ufoPosition →
      (∀ k ∈ ["ArrowUp", "ArrowDown", "ArrowLeft", "ArrowRight"],
        k ∈ s'.keysPressed ↔ k ∈ s.keysPressed) →
      (handleUfoMovement M timeDelta s').ufoPosition =
        (handleUfoMovement M timeDelta s).ufoPosition := by
    intro s' hp hk
    rw [handleUfoMovement_position, handleUfoMovement_position,
      arrowDirection_congr s.keysPressed s'.keysPressed hk, hp]
  refine ⟨?_, ?_, hcongr, ?_⟩
  · rw [handleUfoMovement_position]
    split
    · simp [Vector3.add, Vector3.multiplyScalar, Vector3.normalize, Vector3.divideScalar,
        arrowDirection_y]
    · rfl
  · intro hcancel
    rw [handleUfoMovement_position, arrowDirection_cancel s.keysPressed hcancel]
    simp
  · intro key hkey
    constructor
    · refine hcongr _ (onKeyDown_keysPressed key s).2 fun k hk => ?_
      rw [(onKeyDown_keysPressed key s).1, mem_keysAdd]
      constructor
      · rintro (rfl | h)
        · exact absurd hk hkey
        · exact h
      · exact Or.inr
    · refine hcongr _ rfl fun k hk => ?_
      show k ∈ keysDelete key s.keysPressed ↔ _
      rw [mem_keysDelete]
      constructor
      · exact fun h => h.2
      · exact fun h => ⟨fun e => hkey (e ▸ hk), h⟩

/-- C9 at concrete inputs: with `ArrowUp` and `ArrowDown` both down the UFO stays where it
is, and pressing `d` does not change where a frame moves it. -/
theorem ufo_moves_in_plane_and_opposing_keys_cancel_witness :
    (handleUfoMovement ratMath 1 (onKeyDown "ArrowDown" (onKeyDown "ArrowUp"
      (initialState 800 600 : State ℚ)))).ufoPosition =
      (onKeyDown "ArrowDown" (onKeyDown "ArrowUp"
        (initialState 800 600 : State ℚ))).ufoPosition ∧
    (handleUfoMovement ratMath 1 (onKeyDown "d" (onKeyDown "ArrowUp"
      (initialState 800 600 : State ℚ)))).ufoPosition =
      (handleUfoMovement ratMath 1 (onKeyDown "ArrowUp"
        (initialState 800 600 : State ℚ))).ufoPosition :=
  ⟨(ufo_moves_in_plane_and_opposing_keys_cancel ratMath 1
      (onKeyDown "ArrowDown" (onKeyDown "ArrowUp" (initialState 800 600)))).2.1 (by decide),
   ((ufo_moves_in_plane_and_opposing_keys_cancel ratMath 1
      (onKeyDown "ArrowUp" (initialState 800 600))).2.2.2 "d" (by decide)).1⟩


/-! ### The projection block -/

theorem updateProjection_cameraAspect {α : Type} [LinearOrderedField α] (s : State α) :
    (updateProjection s).cameraAspect =
      if s.updateProjectionMatrix = true ∧ 0 < s.innerHeight ∧ 0 < s.innerWidth then
        fun c =>
          if c = (if s.xrPresenting then CameraRef.xr else s.activeCamera) then
            (s.innerWidth : α) / (s.innerHeight : α)
          else s.cameraAspect c
      else s.cameraAspect := by
  unfold updateProjection
  by_cases hflag : s.updateProjectionMatrix = true
  · by_cases hdim : 0 < s.innerHeight ∧ 0 < s.innerWidth
    · rw [if_pos hflag, if_pos ⟨hflag, hdim⟩]
      dsimp only
      rw [if_pos hdim]
      rfl
    · rw [if_pos hflag, if_neg (fun h => hdim h.2)]
      dsimp only
      rw [if_neg hdim]
  · rw [if_neg hflag, if_neg (fun h => hflag h.1)]

/-- What `update` does to the cameras and the projection flag while no camera toggle is
pending. -/
theorem update_cameras {α : Type} [LinearOrderedField α] (M : JsMath α) (timeDelta : α)
    (s : State α) (htoggle : s.toggleActiveCamera = false) :
    (update M timeDelta s).cameraAspect = (updateProjection s).cameraAspect ∧
    (update M timeDelta s).updateProjectionMatrix = false ∧
    (update M timeDelta s).activeCamera = s.activeCamera := by
  have e : update M timeDelta s =
      { updateProjection (updateMaterials s) with
        ufoRotationY := (update M timeDelta s).ufoRotationY
        ufoPosition := (update M timeDelta s).ufoPosition } := by
    unfold update
    dsimp only
    rw [handleUfoMovement_eq, updateActiveCamera_eq _ (by
      rw [updateProjection_eq, updateMaterials_eq]
      exact htoggle)]
  have ha : (updateProjection (updateMaterials s)).cameraAspect =
      (updateProjection s).cameraAspect := by
    rw [updateProjection_cameraAspect, updateProjection_cameraAspect, updateMaterials_eq]
  refine ⟨by rw [e]; exact ha, ?_, ?_⟩
  · rw [e, updateProjection_eq]
  · rw [e, updateProjection_eq, updateMaterials_eq]

/-- C10 as stated fails: while the renderer presents an XR session, the `update()` after a
resize to 800 x 600 leaves the aspect of the active camera at the 400 / 400 it was created
with (it is the XR camera whose aspect becomes 800 / 600). -/
theorem resize_in_xr_keeps_active_camera_aspect :
    (run ratMath [Event.xrSession true, Event.resize 800 600]
      (initialState 400 400 : State ℚ)).updateProjectionMatrix = true ∧
    0 < (run ratMath [Event.xrSession true, Event.resize 800 600]
      (initialState 400 400 : State ℚ)).innerWidth ∧
    0 < (run ratMath [Event.xrSession true, Event.resize 800 600]
      (initialState 400 400 : State ℚ)).innerHeight ∧
    (update ratMath 0 (run ratMath [Event.xrSession true, Event.resize 800 600]
      (initialState 400 400 : State ℚ))).cameraAspect
      (update ratMath 0 (run ratMath [Event.xrSession true, Event.resize 800 600]
        (initialState 400 400 : State ℚ))).activeCamera ≠ (800 : ℚ) / 600 ∧
    (update ratMath 0 (run ratMath [Event.xrSession true, Event.resize 800 600]
      (initialState 400 400 : State ℚ))).cameraAspect CameraRef.xr = (800 : ℚ) / 600 := by
  obtain ⟨ha, -, hc⟩ := update_cameras ratMath 0
    (run ratMath [Event.xrSession true, Event.resize 800 600] (initialState 400 400 : State ℚ))
    rfl
  refine ⟨rfl, by decide, by decide, ?_, ?_⟩
  · rw [ha, hc, updateProjection_cameraAspect, if_pos ⟨rfl, by decide, by decide⟩]
    show (if CameraRef.orbital = CameraRef.xr then ((800 : ℕ) : ℚ) / ((600 : ℕ) : ℚ)
      else if CameraRef.orbital = CameraRef.xr then (1 : ℚ)
        else ((400 : ℕ) : ℚ) / ((400 : ℕ) : ℚ)) ≠ _
    rw [if_neg (by decide), if_neg (by decide)]
    norm_num
  · rw [ha, updateProjection_cameraAspect, if_pos ⟨rfl, by decide, by decide⟩]
    show (if CameraRef.xr = CameraRef.xr then ((800 : ℕ) : ℚ) / ((600 : ℕ) : ℚ) else _) = _
    rw [if_pos rfl]
    norm_num


/-- C10 amended: `onResize` only sets `updateProjectionMatrix`; the next `update()` resets
the flag and, if and only if `window.innerWidth > 0` and `window.innerHeight > 0`, sets the
aspect of one camera to `innerWidth / innerHeight`, leaving the other aspects alone: of the
active camera when the renderer is not presenting an XR session, of the XR camera when it
is; with a zero dimension no aspect changes; and an `update()` with neither flag set leaves
every aspect unchanged.  No camera toggle is ever pending in a state the page reaches. -/
theorem resize_refreshes_one_camera_aspect {α : Type} [LinearOrderedField α] (M : JsMath α) :
    (∀ s : State α, onResize s = { s with updateProjectionMatrix := true }) ∧
    (∀ (s : State α) (timeDelta : α),
      s.updateProjectionMatrix = true → s.toggleActiveCamera = false →
      (update M timeDelta s).updateProjectionMatrix = false ∧
      (0 < s.innerWidth ∧ 0 < s.innerHeight →
        (update M timeDelta s).cameraAspect
            (if s.xrPresenting then CameraRef.xr else s.activeCamera) =
          (s.innerWidth : α) / (s.innerHeight : α) ∧
        ∀ c, c ≠ (if s.xrPresenting then CameraRef.xr else s.activeCamera) →
          (update M timeDelta s).cameraAspect c = s.cameraAspect c) ∧
      (¬(0 < s.innerWidth ∧ 0 < s.innerHeight) →
        (update M timeDelta s).cameraAspect = s.cameraAspect)) ∧
    (∀ (s : State α) (timeDelta : α),
      s.updateProjectionMatrix = false → s.toggleActiveCamera = false →
      (update M timeDelta s).cameraAspect = s.cameraAspect) ∧
    (∀ (w h : Nat) (events : List (Event α)),
      (run M events (initialState w h)).toggleActiveCamera = false) := by
  refine ⟨fun s => rfl, ?_, ?_, fun w h events => (inv_run M w h events).toggle⟩
  · intro s timeDelta hflag htoggle
    obtain ⟨ha, hf, -⟩ := update_cameras M timeDelta s htoggle
    refine ⟨hf, fun hdim => ?_, fun hdim => ?_⟩
    · rw [ha, updateProjection_cameraAspect, if_pos ⟨hflag, hdim.2, hdim.1⟩]
      exact ⟨if_pos rfl, fun c hc => if_neg hc⟩
    · rw [ha, updateProjection_cameraAspect, if_neg (fun h => hdim ⟨h.2.2, h.2.1⟩)]
  · intro s timeDelta hflag htoggle
    obtain ⟨ha, -, -⟩ := update_cameras M timeDelta s htoggle
    rw [ha, updateProjection_cameraAspect, if_neg (fun h => by simp [hflag] at h)]

/-- C10 amended, at a concrete input: outside XR, the `update()` after a resize to 800 x 600
sets the aspect of the orbital camera, which is the active one, to 800 / 600. -/
theorem resize_refreshes_one_camera_aspect_witness :
    (update ratMath 0 (run ratMath [Event.resize 800 600]
      (initialState 400 400 : State ℚ))).cameraAspect CameraRef.orbital =
        ((800 : ℕ) : ℚ) / ((600 : ℕ) : ℚ) :=
  (((resize_refreshes_one_camera_aspect ratMath).2.1
    (run ratMath [Event.resize 800 600] (initialState 400 400 : State ℚ)) 0 rfl rfl).2.1
      ⟨by decide, by decide⟩).1

/-! ### The heightmap -/

theorem pixelIndex_eq (width i : Nat) : pixelIndex width i = 4 * i := by
  unfold pixelIndex
  dsimp only
  rw [Nat.div_add_mod', Nat.mul_comm]

/-- The height the position attribute holds for vertex `i` after `createSoilGeometry`. -/
theorem createSoilGeometry_getElem (imageData : List Nat) (i : Nat)
    (hi : i < RESOLUTION * RESOLUTION) :
    (createSoilGeometry imageData)[i]? =
      some (imageData[4 * i]?.map fun g : ℕ => fround (soilHeightValue (g : ℚ))) := by
  have hc : i < planeVertexCount (RESOLUTION - 1) (RESOLUTION - 1) := hi
  unfold createSoilGeometry
  simp only [List.getElem?_map, List.getElem?_range hc, Option.map_some', pixelIndex_eq]

/-- The height the position attribute holds for vertex `i` after `generateTerrain`. -/
theorem generateTerrain_getElem (width height : Nat) (imageData : List Nat) (i : Nat)
    (hi : i < width * height) :
    (generateTerrain width height imageData)[i]? =
      some (imageData[4 * i]?.map fun g : ℕ => fround (terrainHeightValue (g : ℚ))) := by
  unfold generateTerrain
  simp only [List.getElem?_map, List.getElem?_range hi, Option.map_some', pixelIndex_eq]

set_option maxRecDepth 100000 in
/-- The 256 heights `createSoilGeometry` can store, evaluated: each is within `2⁻²¹` of
`grayscale * 5 / 127`, at most the height stored for 255, and at most the next one. -/
theorem soil_heights_evaluated :
    ∀ g : Nat, g < 256 →
      |fround (soilHeightValue (g : ℚ)) - (g : ℚ) * 5 / 127| ≤ 1 / 2 ^ 21 ∧
      fround (soilHeightValue (g : ℚ)) ≤ 10527043 / 1048576 ∧
      fround (soilHeightValue (g : ℚ)) ≤ fround (soilHeightValue ((g + 1 : ℕ) : ℚ)) := by
  decide!

set_option maxRecDepth 100000 in
/-- The 256 heights `generateTerrain` can store, evaluated: each is within `2⁻²¹` of
`grayscale * 10 / 255`. -/
theorem terrain_heights_evaluated :
    ∀ g : Nat, g < 256 →
      |fround (terrainHeightValue (g : ℚ)) - (g : ℚ) * (10 / 255)| ≤ 1 / 2 ^ 21 := by
  decide!

set_option maxRecDepth 100000 in
theorem soil_height_255 :
    fround (soilHeightValue ((255 : ℕ) : ℚ)) = 10527043 / 1048576 := by
  decide!

set_option maxRecDepth 100000 in
theorem soil_height_0 : fround (soilHeightValue ((0 : ℕ) : ℚ)) = 0 := by
  decide!

theorem soil_heights_monotone (g g' : Nat) (h : g ≤ g') (h' : g' ≤ 255) :
    fround (soilHeightValue (g : ℚ)) ≤ fround (soilHeightValue (g' : ℚ)) := by
  induction g' with
  | zero =>
    have : g = 0 := Nat.le_zero.1 h
    rw [this]
  | succ k ih =>
    rcases Nat.eq_or_lt_of_le h with e | e
    · rw [e]
    · exact le_trans (ih (Nat.lt_succ_iff.1 e) (by omega))
        (soil_heights_evaluated k (by omega)).2.2

/-- C11 as stated fails: for a white image (every byte 255) the height the position attribute
holds for vertex 0 is the `Float32` 10527043 / 2²⁰ = 10.0393705368042, which is not
`255 * 5 / 127` and lies above it. -/
theorem soil_height_of_white_pixel_exceeds_bound :
    (createSoilGeometry (List.replicate (4 * 256 * 256) 255))[0]? =
      some (some (10527043 / 1048576)) ∧
    (255 * 5 / 127 : ℚ) < 10527043 / 1048576 := by
  refine ⟨?_, by norm_num⟩
  rw [createSoilGeometry_getElem _ 0 (by norm_num [RESOLUTION])]
  have h : (List.replicate (4 * 256 * 256) 255)[4 * 0]? = some 255 := by
    rw [List.getElem?_replicate]
    norm_num
  rw [h, Option.map_some', soil_height_255]

/-- C11 amended: in `createSoilGeometry`, for every vertex index `i < RESOLUTION * RESOLUTION
= 65536` the byte index `(floor(i / 256) * 256 + i mod 256) * 4` equals `4 * i` and lies
inside the `4 * 256 * 256` entries of `imageData`, and the height stored for vertex `i` is
the `Float32` rounding of `imageData[4 * i] / 127 * 5` computed in doubles, within `2⁻²¹` of
`imageData[4 * i] * 5 / 127`; the stored heights are 0 for grayscale 0, non-decreasing in
the grayscale and at most 10527043 / 2²⁰ = 10.0393705368042, the height stored for 255;
`generateTerrain` of `terrain.js` reads the same byte index `4 * i` for every
`i < width * height` and stores the `Float32` rounding of `grayscale / 255 * 10`, within
`2⁻²¹` of `grayscale * 10 / 255`. -/
theorem heightmap_sampling_stores_rounded_heights :
    RESOLUTION * RESOLUTION = 65536 ∧
    (∀ i, i < RESOLUTION * RESOLUTION →
      (i / 256 * 256 + i % 256) * 4 = 4 * i ∧ pixelIndex RESOLUTION i = 4 * i ∧
      4 * i < 4 * 256 * 256) ∧
    (∀ (imageData : List Nat) (i : Nat), i < RESOLUTION * RESOLUTION →
      (createSoilGeometry imageData)[i]? =
        some (imageData[4 * i]?.map fun g : ℕ => fround (soilHeightValue (g : ℚ))) ∧
      (imageData.length = 4 * 256 * 256 → imageData[4 * i]?.isSome = true)) ∧
    (∀ g : Nat, g ≤ 255 →
      soilHeightValue (g : ℚ) = toDouble (toDouble ((g : ℚ) / 127) * 5) ∧
      |fround (soilHeightValue (g : ℚ)) - (g : ℚ) * 5 / 127| ≤ 1 / 2 ^ 21 ∧
      fround (soilHeightValue (g : ℚ)) ≤ 10527043 / 1048576) ∧
    fround (soilHeightValue ((0 : ℕ) : ℚ)) = 0 ∧
    fround (soilHeightValue ((255 : ℕ) : ℚ)) = 10527043 / 1048576 ∧
    (∀ g g' : Nat, g ≤ g' → g' ≤ 255 →
      fround (soilHeightValue (g : ℚ)) ≤ fround (soilHeightValue (g' : ℚ))) ∧
    (∀ (width height : Nat) (imageData : List Nat) (i : Nat), i < width * height →
      pixelIndex width i = 4 * i ∧
      (generateTerrain width height imageData)[i]? =
        some (imageData[4 * i]?.map fun g : ℕ => fround (terrainHeightValue (g : ℚ)))) ∧
    (∀ g : Nat, g ≤ 255 →
      terrainHeightValue (g : ℚ) = toDouble (toDouble ((g : ℚ) / 255) * 10) ∧
      |fround (terrainHeightValue (g : ℚ)) - (g : ℚ) * (10 / 255)| ≤ 1 / 2 ^ 21) := by
  have h127 : toDouble (toDouble ((RESOLUTION : ℚ) / 2) - 1) = 127 := by
    set_option maxRecDepth 100000 in decide!
  refine ⟨rfl, ?_, ?_, ?_, soil_height_0, soil_height_255, soil_heights_monotone, ?_, ?_⟩
  · intro i hi
    have h : RESOLUTION * RESOLUTION = 65536 := rfl
    rw [h] at hi
    refine ⟨by rw [Nat.div_add_mod', Nat.mul_comm], pixelIndex_eq _ _, ?_⟩
    omega
  · intro imageData i hi
    refine ⟨createSoilGeometry_getElem imageData i hi, fun hlen => ?_⟩
    have h : RESOLUTION * RESOLUTION = 65536 := rfl
    rw [h] at hi
    rw [Option.isSome_iff_exists]
    exact ⟨_, List.getElem?_eq_getElem (by omega)⟩
  · intro g hg
    refine ⟨?_, (soil_heights_evaluated g (by omega)).1, (soil_heights_evaluated g (by omega)).2.1⟩
    unfold soilHeightValue
    rw [h127]
  · intro width height imageData i hi
    exact ⟨pixelIndex_eq _ _, generateTerrain_getElem width height imageData i hi⟩
  · intro g hg
    exact ⟨rfl, terrain_heights_evaluated g (by omega)⟩

/-- C11 amended, at concrete inputs: vertex 300 of a uniformly gray image (value 127) in
`createSoilGeometry`, the height stored for grayscale 127, and vertex 5 of a 3 x 2 image
read by `generateTerrain`. -/
theorem heightmap_sampling_stores_rounded_heights_witness :
    (createSoilGeometry (List.replicate (4 * 256 * 256) (127 : ℕ)))[300]? =
      some ((List.replicate (4 * 256 * 256) (127 : ℕ))[4 * 300]?.map
        fun g : ℕ => fround (soilHeightValue (g : ℚ))) ∧
    (List.replicate (4 * 256 * 256) (127 : ℕ))[4 * 300]?.isSome = true ∧
    |fround (soilHeightValue ((127 : ℕ) : ℚ)) - ((127 : ℕ) : ℚ) * 5 / 127| ≤ 1 / 2 ^ 21 ∧
    (generateTerrain 3 2 [0, 0, 0, 255, 10, 10, 10, 255, 20, 20, 20, 255, 30, 30, 30, 255,
      40, 40, 40, 255, 50, 50, 50, 255])[5]? =
      some (([0, 0, 0, 255, 10, 10, 10, 255, 20, 20, 20, 255, 30, 30, 30, 255,
        40, 40, 40, 255, 50, 50, 50, 255] : List ℕ)[4 * 5]?.map
          fun g : ℕ => fround (terrainHeightValue (g : ℚ))) :=
  ⟨(heightmap_sampling_stores_rounded_heights.2.2.1 (List.replicate (4 * 256 * 256) 127) 300
      (by norm_num [RESOLUTION])).1,
   (heightmap_sampling_stores_rounded_heights.2.2.1 (List.replicate (4 * 256 * 256) 127) 300
      (by norm_num [RESOLUTION])).2 (List.length_replicate _ _),
   (heightmap_sampling_stores_rounded_heights.2.2.2.1 127 (by norm_num)).2.1,
   (heightmap_sampling_stores_rounded_heights.2.2.2.2.2.2.2.1 3 2
      [0, 0, 0, 255, 10, 10, 10, 255, 20, 20, 20, 255, 30, 30, 30, 255,
        40, 40, 40, 255, 50, 50, 50, 255] 5 (by norm_num)).2⟩

/-! ### The tree -/

theorem vector3_ext {α : Type} {v w : Vector3 α} (hx : v.x = w.x) (hy : v.y = w.y)
    (hz : v.z = w.z) : v = w := by
  cases v
  cases w
  simp only [Vector3.mk.injEq]
  exact ⟨hx, hy, hz⟩

/-- The vector `(0, 1, 0)` rotated about `Z`, in terms of the sine and cosine of half the
angle. -/
theorem applyAxisAngle_up {α : Type} [LinearOrderedField α] (T : JsTrig α) (angle : α) :
    Vector3.applyAxisAngle T ⟨0, 1, 0⟩ ⟨0, 0, 1⟩ angle =
      ⟨-(2 * T.sin (angle / 2) * T.cos (angle / 2)),
       1 - 2 * (T.sin (angle / 2) * T.sin (angle / 2)), 0⟩ := by
  unfold Vector3.applyAxisAngle
  apply vector3_ext <;> dsimp only <;> ring

/-- With `sin² + cos² = 1` the rotated vector is a unit vector. -/
theorem applyAxisAngle_up_unit {α : Type} [LinearOrderedField α] (T : JsTrig α)
    (hT : ∀ x, T.sin x * T.sin x + T.cos x * T.cos x = 1) (angle : α) :
    (Vector3.applyAxisAngle T ⟨0, 1, 0⟩ ⟨0, 0, 1⟩ angle).lengthSq = 1 := by
  rw [applyAxisAngle_up]
  unfold Vector3.lengthSq
  dsimp only
  have h := hT (angle / 2)
  linear_combination (4 * (T.sin (angle / 2) * T.sin (angle / 2))) * h

/-- C12 as stated fails: the first branch is 8 long, not 4, both as a cylinder geometry and
as the length `createTree` places its centre and canopy with. -/
theorem tree_first_branch_is_eight_long :
    (treeFirstBranchGeometry : CylinderGeometry ℚ).height = 8 ∧
    (createTreeGroup ratTrig 0).branchLen1 = 8 ∧
    ¬((treeFirstBranchGeometry : CylinderGeometry ℚ).height = 4 ∧
      (createTreeGroup ratTrig 0).branchLen1 = 4) := by
  refine ⟨rfl, rfl, ?_⟩
  rintro ⟨h, -⟩
  have h8 : (treeFirstBranchGeometry : CylinderGeometry ℚ).height = 8 := rfl
  rw [h8] at h
  norm_num at h

/-- C12 amended: in every tree built by `createTree` the first branch has length 8 and the
second branch has length 4; for each branch the height of its cylinder geometry and the
length used to place its centre and its canopy are the same number. -/
theorem tree_branch_lengths {α : Type} [LinearOrderedField α] (T : JsTrig α) (random : α) :
    (treeFirstBranchGeometry : CylinderGeometry α).height = 8 ∧
    (createTreeGroup T random).branchLen1 = 8 ∧
    (treeSecondBranchGeometry : CylinderGeometry α).height = 4 ∧
    (createTreeGroup T random).branchLen2 = 4 ∧
    (createTreeGroup T random).firstBranchPosition =
      (createTreeGroup T random).upVec1.multiplyScalar (8 / 2) ∧
    (createTreeGroup T random).canopy1Position =
      (createTreeGroup T random).upVec1.multiplyScalar 8 ∧
    (createTreeGroup T random).secondBranchPosition =
      (createTreeGroup T random).halfway1.add
        ((createTreeGroup T random).upVec2.multiplyScalar (4 / 2)) ∧
    (createTreeGroup T random).canopy2Position =
      (createTreeGroup T random).halfway1.add
        ((createTreeGroup T random).upVec2.multiplyScalar 4) :=
  ⟨rfl, rfl, rfl, rfl, rfl, rfl, rfl, rfl⟩

/-- C13, what the code does: `tilt1 = 0.1 + random * 0.1` and `tilt2 = tilt1 + 0.6`, so for
every draw below 1 `tilt1` is below 0.20 and for every draw from 0 on `tilt2` is at least
0.70: neither lies in the range its comment states.  At the draw 0 they are 0.1 and 0.7. -/
theorem tree_tilts_miss_commented_ranges {α : Type} [LinearOrderedField α] (T : JsTrig α) :
    (∀ random : α,
      (createTreeGroup T random).tilt1 = 1 / 10 + random * (1 / 10) ∧
      (createTreeGroup T random).tilt2 = (createTreeGroup T random).tilt1 + 6 / 10 ∧
      ((createTreeGroup T random).tilt1 < 2 / 10 ∨ 1 ≤ random) ∧
      (7 / 10 ≤ (createTreeGroup T random).tilt2 ∨ random < 0)) ∧
    (createTreeGroup T (0 : α)).tilt1 = 1 / 10 ∧
    ¬(2 / 10 ≤ (createTreeGroup T (0 : α)).tilt1 ∧
      (createTreeGroup T (0 : α)).tilt1 ≤ 3 / 10) ∧
    (createTreeGroup T (0 : α)).tilt2 = 7 / 10 ∧
    ¬(4 / 10 ≤ (createTreeGroup T (0 : α)).tilt2 ∧
      (createTreeGroup T (0 : α)).tilt2 ≤ 5 / 10) := by
  have h1 : ∀ random : α, (createTreeGroup T random).tilt1 = 1 / 10 + random * (1 / 10) :=
    fun _ => rfl
  have h2 : ∀ random : α,
      (createTreeGroup T random).tilt2 = (createTreeGroup T random).tilt1 + 6 / 10 :=
    fun _ => rfl
  refine ⟨fun random => ⟨h1 random, h2 random, ?_, ?_⟩, ?_, ?_, ?_, ?_⟩
  · rw [h1]
    rcases lt_or_le random 1 with h | h
    · left
      linarith
    · exact Or.inr h
  · rw [h2, h1]
    rcases lt_or_le random 0 with h | h
    · exact Or.inr h
    · left
      linarith
  · rw [h1]; norm_num
  · rw [h1]; norm_num
  · rw [h2, h1]; norm_num
  · rw [h2, h1]; norm_num

/-- Over the reals, with the real sine and cosine, `applyAxisAngle` turns `(0, 1, 0)` about
`Z` by the given angle. -/
theorem applyAxisAngle_up_real (angle : ℝ) :
    Vector3.applyAxisAngle ⟨Real.sin, Real.cos⟩ ⟨0, 1, 0⟩ ⟨0, 0, 1⟩ angle =
      ⟨-Real.sin angle, Real.cos angle, 0⟩ := by
  rw [applyAxisAngle_up]
  have hs := Real.sin_two_mul (angle / 2)
  have hc := Real.cos_two_mul (angle / 2)
  have h1 := Real.sin_sq_add_cos_sq (angle / 2)
  have h2 : 2 * (angle / 2) = angle := by ring
  rw [h2] at hs hc
  apply vector3_ext
  · show -(2 * Real.sin (angle / 2) * Real.cos (angle / 2)) = -Real.sin angle
    rw [hs]
  · show 1 - 2 * (Real.sin (angle / 2) * Real.sin (angle / 2)) = Real.cos angle
    rw [hc]
    linear_combination (-2) * h1
  · rfl

/-- The axis of a mesh that is only turned about `Z`: the point `(0, y, 0)` of its geometry
is shown at its position plus `y` times the vector `applyAxisAngle` gives for the same angle,
provided `sin 0 = 0` and `cos 0 = 1`. -/
theorem meshPoint_axis {α : Type} [LinearOrderedField α] (T : JsTrig α)
    (h0 : T.sin 0 = 0) (h1 : T.cos 0 = 1) (position : Vector3 α) (rotationZ y : α) :
    meshPoint T position rotationZ ⟨0, y, 0⟩ =
      position.add ((Vector3.applyAxisAngle T ⟨0, 1, 0⟩ ⟨0, 0, 1⟩ rotationZ).multiplyScalar y) := by
  rw [applyAxisAngle_up]
  unfold meshPoint
  simp only [zero_div, h0, h1]
  apply vector3_ext <;> simp only [Vector3.add, Vector3.multiplyScalar] <;> ring

set_option maxRecDepth 100000 in
/-- C14 as stated fails in the doubles the script computes with: when `Math.random()` returns
`0.125`, the `x` coordinate of the second branch's centre minus `upVec2.x` times half the
branch length differs from the `x` coordinate of the point halfway up the first branch by
`2⁻⁵⁴`, whether the difference is taken exactly or in doubles. -/
theorem tree_second_branch_lower_end_is_off_in_doubles :
    (createTreeGroupIn toDouble drawEighthTrig (1 / 8)).secondBranchPosition.x -
        (createTreeGroupIn toDouble drawEighthTrig (1 / 8)).upVec2.x *
          ((treeSecondBranchGeometry : CylinderGeometry ℚ).height / 2) -
      (createTreeGroupIn toDouble drawEighthTrig (1 / 8)).halfway1.x = 1 / 2 ^ 54 ∧
    toDouble ((createTreeGroupIn toDouble drawEighthTrig (1 / 8)).secondBranchPosition.x -
        toDouble ((createTreeGroupIn toDouble drawEighthTrig (1 / 8)).upVec2.x *
          toDouble ((treeSecondBranchGeometry : CylinderGeometry ℚ).height / 2))) ≠
      (createTreeGroupIn toDouble drawEighthTrig (1 / 8)).halfway1.x ∧
    (createTreeGroupIn toDouble drawEighthTrig (1 / 8)).halfway1.x =
      (createTreeGroupIn toDouble drawEighthTrig (1 / 8)).firstBranchPosition.x := by
  decide!

/-- The exact placement is the one computed with the identity as rounding. -/
theorem createTreeGroupIn_id {α : Type} [LinearOrderedField α] (T : JsTrig α) (random : α) :
    createTreeGroupIn (fun x => x) T random = createTreeGroup T random := rfl

/-- C14 amended: in exact real arithmetic, for every draw, `upVec1` and `upVec2` are the unit
vectors `(0, 1, 0)` turned about `Z` by `+tilt1` and `-tilt2`, which are the axes of the two
cylinder meshes (`rotation.z` is `+tilt1` and `-tilt2`); the lower end of the first branch
(its centre minus `upVec1` times half its length) is the local origin, the lower end of the
second branch (its centre minus `upVec2` times half its length) is the midpoint of the first
branch, and the two canopies sit at the upper ends of the first and second branch. -/
theorem tree_branch_placement_exact (T : JsTrig ℝ) (hsin : ∀ x, T.sin x = Real.sin x)
    (hcos : ∀ x, T.cos x = Real.cos x) (random : ℝ) :
    ((createTreeGroup T random).upVec1 =
        ⟨-Real.sin (createTreeGroup T random).tilt1,
          Real.cos (createTreeGroup T random).tilt1, 0⟩ ∧
      (createTreeGroup T random).upVec2 =
        ⟨-Real.sin (-(createTreeGroup T random).tilt2),
          Real.cos (-(createTreeGroup T random).tilt2), 0⟩ ∧
      (createTreeGroup T random).upVec1.lengthSq = 1 ∧
      (createTreeGroup T random).upVec2.lengthSq = 1) ∧
    ((createTreeGroup T random).firstBranchRotationZ = (createTreeGroup T random).tilt1 ∧
      (createTreeGroup T random).secondBranchRotationZ = -(createTreeGroup T random).tilt2 ∧
      (∀ y, meshPoint T (createTreeGroup T random).firstBranchPosition
          (createTreeGroup T random).firstBranchRotationZ ⟨0, y, 0⟩ =
        (createTreeGroup T random).firstBranchPosition.add
          ((createTreeGroup T random).upVec1.multiplyScalar y)) ∧
      (∀ y, meshPoint T (createTreeGroup T random).secondBranchPosition
          (createTreeGroup T random).secondBranchRotationZ ⟨0, y, 0⟩ =
        (createTreeGroup T random).secondBranchPosition.add
          ((createTreeGroup T random).upVec2.multiplyScalar y))) ∧
    (meshPoint T (createTreeGroup T random).firstBranchPosition
        (createTreeGroup T random).firstBranchRotationZ
        ⟨0, -((treeFirstBranchGeometry : CylinderGeometry ℝ).height / 2), 0⟩ = ⟨0, 0, 0⟩ ∧
      (createTreeGroup T random).firstBranchPosition.sub
        ((createTreeGroup T random).upVec1.multiplyScalar
          ((treeFirstBranchGeometry : CylinderGeometry ℝ).height / 2)) = ⟨0, 0, 0⟩) ∧
    (meshPoint T (createTreeGroup T random).secondBranchPosition
        (createTreeGroup T random).secondBranchRotationZ
        ⟨0, -((treeSecondBranchGeometry : CylinderGeometry ℝ).height / 2), 0⟩ =
        (createTreeGroup T random).firstBranchPosition ∧
      (createTreeGroup T random).secondBranchPosition.sub
        ((createTreeGroup T random).upVec2.multiplyScalar
          ((treeSecondBranchGeometry : CylinderGeometry ℝ).height / 2)) =
        (createTreeGroup T random).firstBranchPosition ∧
      (createTreeGroup T random).firstBranchPosition =
        ((meshPoint T (createTreeGroup T random).firstBranchPosition
            (createTreeGroup T random).firstBranchRotationZ
            ⟨0, -((treeFirstBranchGeometry : CylinderGeometry ℝ).height / 2), 0⟩).add
          (meshPoint T (createTreeGroup T random).firstBranchPosition
            (createTreeGroup T random).firstBranchRotationZ
            ⟨0, (treeFirstBranchGeometry : CylinderGeometry ℝ).height / 2, 0⟩)).multiplyScalar
          (1 / 2)) ∧
    ((createTreeGroup T random).canopy1Position =
        meshPoint T (createTreeGroup T random).firstBranchPosition
          (createTreeGroup T random).firstBranchRotationZ
          ⟨0, (treeFirstBranchGeometry : CylinderGeometry ℝ).height / 2, 0⟩ ∧
      (createTreeGroup T random).canopy2Position =
        meshPoint T (createTreeGroup T random).secondBranchPosition
          (createTreeGroup T random).secondBranchRotationZ
          ⟨0, (treeSecondBranchGeometry : CylinderGeometry ℝ).height / 2, 0⟩) := by
  have hT : T = ⟨Real.sin, Real.cos⟩ := by
    cases T
    simp only [JsTrig.mk.injEq]
    exact ⟨funext hsin, funext hcos⟩
  subst hT
  have h0 : (⟨Real.sin, Real.cos⟩ : JsTrig ℝ).sin 0 = 0 := Real.sin_zero
  have h1 : (⟨Real.sin, Real.cos⟩ : JsTrig ℝ).cos 0 = 1 := Real.cos_zero
  have hunit : ∀ x : ℝ, Real.sin x * Real.sin x + Real.cos x * Real.cos x = 1 := by
    intro x
    have h := Real.sin_sq_add_cos_sq x
    rw [pow_two, pow_two] at h
    exact h
  have hax1 := meshPoint_axis ⟨Real.sin, Real.cos⟩ h0 h1
    (createTreeGroup ⟨Real.sin, Real.cos⟩ random).firstBranchPosition
    (createTreeGroup ⟨Real.sin, Real.cos⟩ random).firstBranchRotationZ
  have hax2 := meshPoint_axis ⟨Real.sin, Real.cos⟩ h0 h1
    (createTreeGroup ⟨Real.sin, Real.cos⟩ random).secondBranchPosition
    (createTreeGroup ⟨Real.sin, Real.cos⟩ random).secondBranchRotationZ
  refine ⟨⟨applyAxisAngle_up_real _, applyAxisAngle_up_real _,
      applyAxisAngle_up_unit _ hunit _, applyAxisAngle_up_unit _ hunit _⟩,
    ⟨rfl, rfl, hax1, hax2⟩, ⟨?_, ?_⟩, ⟨?_, ?_, ?_⟩, ⟨?_, ?_⟩⟩
  all_goals first
    | rw [hax1, hax1]
    | rw [hax1]
    | rw [hax2]
    | skip
  all_goals
    apply vector3_ext <;>
      simp only [createTreeGroup, treeFirstBranchGeometry, treeSecondBranchGeometry,
        Vector3.sub, Vector3.add, Vector3.multiplyScalar] <;>
      ring

/-- C14 amended, at a concrete input: over the reals, with the real sine and cosine and the
draw 1/2, `upVec1` is `(0, 1, 0)` turned by `tilt1`, the lower end of the first cylinder mesh
is the local origin and the lower end of the second is the centre of the first. -/
theorem tree_branch_placement_exact_witness :
    (createTreeGroup ⟨Real.sin, Real.cos⟩ (1 / 2 : ℝ)).upVec1 =
        ⟨-Real.sin (createTreeGroup ⟨Real.sin, Real.cos⟩ (1 / 2 : ℝ)).tilt1,
          Real.cos (createTreeGroup ⟨Real.sin, Real.cos⟩ (1 / 2 : ℝ)).tilt1, 0⟩ ∧
      meshPoint ⟨Real.sin, Real.cos⟩
        (createTreeGroup ⟨Real.sin, Real.cos⟩ (1 / 2 : ℝ)).firstBranchPosition
        (createTreeGroup ⟨Real.sin, Real.cos⟩ (1 / 2 : ℝ)).firstBranchRotationZ
        ⟨0, -((treeFirstBranchGeometry : CylinderGeometry ℝ).height / 2), 0⟩ = ⟨0, 0, 0⟩ ∧
      meshPoint ⟨Real.sin, Real.cos⟩
        (createTreeGroup ⟨Real.sin, Real.cos⟩ (1 / 2 : ℝ)).secondBranchPosition
        (createTreeGroup ⟨Real.sin, Real.cos⟩ (1 / 2 : ℝ)).secondBranchRotationZ
        ⟨0, -((treeSecondBranchGeometry : CylinderGeometry ℝ).height / 2), 0⟩ =
        (createTreeGroup ⟨Real.sin, Real.cos⟩ (1 / 2 : ℝ)).firstBranchPosition :=
  have h := tree_branch_placement_exact ⟨Real.sin, Real.cos⟩ (fun _ => rfl) (fun _ => rfl)
    (1 / 2)
  ⟨h.1.1, h.2.2.1.1, h.2.2.2.1.1⟩

/-! ### The trees on the terrain -/

/-- The function `createTree` registers four meshes and changes nothing else. -/
theorem createTree_frame {α : Type} (s : State α) :
    ∃ m1 m2 m3 m4, createTree s = some { s with meshes := s.meshes ++ [m1, m2, m3, m4] } := by
  obtain ⟨m1, e1⟩ := createNamedMesh_key "treeFirstBranch" "tree" s (by decide)
  obtain ⟨m2, e2⟩ := createNamedMesh_key "treeSecondBranch" "tree"
    { s with meshes := s.meshes ++ [m1] } (by decide)
  obtain ⟨m3, e3⟩ := createNamedMesh_key "treeCanopy" "tree"
    { s with meshes := s.meshes ++ [m1] ++ [m2] } (by decide)
  obtain ⟨m4, e4⟩ := createNamedMesh_key "treeCanopy" "tree"
    { s with meshes := s.meshes ++ [m1] ++ [m2] ++ [m3] } (by decide)
  refine ⟨m1, m2, m3, m4, ?_⟩
  unfold createTree
  simp only [Option.bind_eq_bind]
  erw [e1]
  simp only [Option.some_bind]
  erw [e2]
  simp only [Option.some_bind]
  erw [e3]
  simp only [Option.some_bind]
  erw [e4]
  simp

/-- Where `createTrees` puts the tree of a position: the first hit of its ray, raised by
`0.01`; no tree when the ray misses. -/
theorem createTreeAt_treeGroups {α : Type} [LinearOrderedField α]
    (intersect : α → α → Option (Vector3 α)) (s : State α) (pos : α × α) :
    ∃ s', createTreeAt intersect s pos = some s' ∧
      s'.treeGroups = s.treeGroups ++
        ((intersect pos.1 pos.2).map fun groundPt =>
          (⟨groundPt.x, groundPt.y + 1 / 100, groundPt.z⟩ : Vector3 α)).toList := by
  unfold createTreeAt
  cases h : intersect pos.1 pos.2 with
  | none => exact ⟨s, rfl, by simp⟩
  | some groundPt =>
    obtain ⟨m1, m2, m3, m4, e⟩ := createTree_frame s
    refine ⟨_, by simp only [e, Option.bind_eq_bind, Option.some_bind]; rfl, ?_⟩
    simp

theorem foldlM_createTreeAt_treeGroups {α : Type} [LinearOrderedField α]
    (intersect : α → α → Option (Vector3 α)) (positions : List (α × α)) :
    ∀ s : State α, ∃ s', positions.foldlM (createTreeAt intersect) s = some s' ∧
      s'.treeGroups = s.treeGroups ++ positions.filterMap fun pos =>
        (intersect pos.1 pos.2).map fun groundPt =>
          (⟨groundPt.x, groundPt.y + 1 / 100, groundPt.z⟩ : Vector3 α) := by
  induction positions with
  | nil => exact fun s => ⟨s, rfl, by simp⟩
  | cons pos rest ih =>
    intro s
    obtain ⟨s1, e1, g1⟩ := createTreeAt_treeGroups intersect s pos
    obtain ⟨s2, e2, g2⟩ := ih s1
    refine ⟨s2, by simp [List.foldlM, e1, e2], ?_⟩
    rw [g2, g1, List.append_assoc]
    congr 1
    cases h : intersect pos.1 pos.2 <;> simp [List.filterMap_cons, h]

/-- C15 as stated fails: when the six rays all miss the soil, `createTrees` (here called by
the continuation of the heightmap load) adds no tree group at all; when only the ray at
`(30, 5)` misses, it adds five. -/
theorem createTrees_skips_missed_positions :
    (run ratMath [Event.soilLoaded fun _ _ => none]
      (initialState 800 600 : State ℚ)).soil.isSome = true ∧
    (run ratMath [Event.soilLoaded fun _ _ => none]
      (initialState 800 600 : State ℚ)).treeGroups.length = 0 ∧
    ((createTrees (fun x z => if x = 30 then none else some ⟨x, 0, z⟩)
      (run ratMath [Event.soilLoaded fun _ _ => none]
        (initialState 800 600 : State ℚ))).map fun s => s.treeGroups.length) = some 5 := by
  refine ⟨rfl, rfl, ?_⟩
  obtain ⟨s', e, g⟩ := foldlM_createTreeAt_treeGroups
    (fun x z : ℚ => if x = 30 then none else some (⟨x, 0, z⟩ : Vector3 ℚ)) treePositions
    (run ratMath [Event.soilLoaded fun _ _ => none] (initialState 800 600 : State ℚ))
  have e' : createTrees (fun x z : ℚ => if x = 30 then none else some (⟨x, 0, z⟩ : Vector3 ℚ))
      (run ratMath [Event.soilLoaded fun _ _ => none] (initialState 800 600 : State ℚ)) =
      some s' := e
  rw [e', Option.map_some', g]
  simp [treePositions]
  rfl

/-- C15 amended: `createTrees` does nothing while `soil` is unset; otherwise it adds one tree
group for every one of the six fixed positions whose downward ray hits the soil, in order,
each at the first hit point raised by `0.01` in `y`: at most six groups, and exactly six
when every ray hits. -/
theorem createTrees_places_one_tree_per_hit {α : Type} [LinearOrderedField α]
    (intersect : α → α → Option (Vector3 α)) (s : State α) :
    (treePositions : List (α × α)) =
      [(-20, -40), (-5, -20), (15, -35), (-25, 5), (10, 20), (30, 5)] ∧
    (s.soil = none → createTrees intersect s = some s) ∧
    (s.soil ≠ none → ∃ s', createTrees intersect s = some s' ∧
      s'.treeGroups = s.treeGroups ++ treePositions.filterMap (fun pos =>
        (intersect pos.1 pos.2).map fun groundPt =>
          (⟨groundPt.x, groundPt.y + 1 / 100, groundPt.z⟩ : Vector3 α)) ∧
      s'.treeGroups.length ≤ s.treeGroups.length + 6 ∧
      ((∀ pos ∈ (treePositions : List (α × α)), (intersect pos.1 pos.2).isSome = true) →
        s'.treeGroups.length = s.treeGroups.length + 6)) := by
  refine ⟨rfl, fun h => ?_, fun h => ?_⟩
  · unfold createTrees
    simp [h]
  · obtain ⟨s', e, g⟩ := foldlM_createTreeAt_treeGroups intersect treePositions s
    have hsome : s.soil.isNone = false := by
      cases hs : s.soil with
      | none => exact absurd hs h
      | some _ => rfl
    refine ⟨s', by unfold createTrees; simp only [hsome]; exact e, g, ?_, ?_⟩
    · rw [g, List.length_append]
      have := List.length_filterMap_le (fun pos : α × α =>
        (intersect pos.1 pos.2).map fun groundPt =>
          (⟨groundPt.x, groundPt.y + 1 / 100, groundPt.z⟩ : Vector3 α)) treePositions
      have h6 : (treePositions : List (α × α)).length = 6 := rfl
      omega
    · intro hall
      rw [g, List.length_append]
      congr 1
      have hmap : (treePositions : List (α × α)).filterMap (fun pos =>
          (intersect pos.1 pos.2).map fun groundPt =>
            (⟨groundPt.x, groundPt.y + 1 / 100, groundPt.z⟩ : Vector3 α)) =
          (treePositions : List (α × α)).map (fun pos =>
            ((intersect pos.1 pos.2).map fun groundPt =>
              (⟨groundPt.x, groundPt.y + 1 / 100, groundPt.z⟩ : Vector3 α)).getD ⟨0, 0, 0⟩) := by
        generalize (treePositions : List (α × α)) = l at hall
        induction l with
        | nil => rfl
        | cons p rest ihl =>
          have hp := hall p (List.mem_cons_self _ _)
          obtain ⟨g0, hg0⟩ := Option.isSome_iff_exists.1 hp
          rw [List.filterMap_cons, List.map_cons, hg0,
            ihl fun q hq => hall q (List.mem_cons_of_mem _ hq)]
          rfl
      rw [hmap, List.length_map]
      rfl

/-- C15 amended, at concrete inputs: before the soil exists nothing is planted; on a flat
soil that every ray hits, six trees are planted. -/
theorem createTrees_places_one_tree_per_hit_witness :
    createTrees (fun x z => some ⟨x, 0, z⟩) (initialState 800 600 : State ℚ) =
      some (initialState 800 600) ∧
    ∃ s', createTrees (fun x z => some ⟨x, 0, z⟩)
        (run ratMath [Event.soilLoaded fun _ _ => none] (initialState 800 600 : State ℚ)) =
        some s' ∧
      s'.treeGroups.length =
        (run ratMath [Event.soilLoaded fun _ _ => none]
          (initialState 800 600 : State ℚ)).treeGroups.length + 6 :=
  ⟨(createTrees_places_one_tree_per_hit (fun x z => some ⟨x, 0, z⟩)
      (initialState 800 600 : State ℚ)).2.1 rfl,
   match (createTrees_places_one_tree_per_hit (fun x z => some ⟨x, 0, z⟩)
      (run ratMath [Event.soilLoaded fun _ _ => none]
        (initialState 800 600 : State ℚ))).2.2 (by decide) with
   | ⟨s', e, _, _, hall⟩ => ⟨s', e, hall fun _ _ => rfl⟩⟩

/-! ### The house geometries -/

theorem createHouseGeometry_wellFormed {α : Type} [LinearOrderedField α]
    (vertices : List (Vector3 α)) (indexes : List (List Nat))
    (h : ∀ triangle ∈ indexes, IsTriangle vertices.length triangle) :
    HouseGeometryWellFormed vertices indexes := by
  refine ⟨h, ?_, ?_, ?_⟩
  · show (indexes.flatMap fun triangle => triangle).length = 3 * indexes.length
    induction indexes with
    | nil => rfl
    | cons t rest ih =>
      rw [List.flatMap_cons, List.length_append, ih fun t' ht' => h t' (List.mem_cons_of_mem _ ht'),
        (h t (List.mem_cons_self _ _)).1, List.length_cons]
      omega
  · intro i hi
    obtain ⟨t, ht, hit⟩ := List.mem_flatMap.1 hi
    exact (h t ht).2.2 i hit
  · show ((vertices.flatMap fun vertex => [vertex.x, vertex.y, vertex.z]).map fun coord =>
      coord * 1).length = 3 * vertices.length
    rw [List.length_map]
    clear h
    induction vertices with
    | nil => rfl
    | cons v rest ih =>
      rw [List.flatMap_cons, List.length_append, ih, List.length_cons]
      simp only [List.length_cons, List.length_nil]
      omega

/-- C16: each of the five hardcoded house geometries (walls, frames, door, roof, windows) is
well-formed: every entry of `indexes` is a triple of three distinct vertex indices below the
number of vertices (47, 64, 4, 8 and 12), and `createHouseGeometry` builds an index buffer
of three entries per triangle that only references existing vertices and a position buffer
of three coordinates per vertex. -/
theorem house_geometries_well_formed {α : Type} [LinearOrderedField α] :
    ((createHouseWallsGeometry : BufferGeometry α) =
        createHouseGeometry houseWallsVertices houseWallsIndexes 1 ∧
      (houseWallsVertices : List (Vector3 α)).length = 47 ∧ houseWallsIndexes.length = 44 ∧
      HouseGeometryWellFormed (houseWallsVertices : List (Vector3 α)) houseWallsIndexes) ∧
    ((createHouseFramesGeometry : BufferGeometry α) =
        createHouseGeometry houseFramesVertices houseFramesIndexes 1 ∧
      (houseFramesVertices : List (Vector3 α)).length = 64 ∧ houseFramesIndexes.length = 40 ∧
      HouseGeometryWellFormed (houseFramesVertices : List (Vector3 α)) houseFramesIndexes) ∧
    ((createHouseDoorGeometry : BufferGeometry α) =
        createHouseGeometry houseDoorVertices houseDoorIndexes 1 ∧
      (houseDoorVertices : List (Vector3 α)).length = 4 ∧ houseDoorIndexes.length = 2 ∧
      HouseGeometryWellFormed (houseDoorVertices : List (Vector3 α)) houseDoorIndexes) ∧
    ((createHouseRoofGeometry : BufferGeometry α) =
        createHouseGeometry houseRoofVertices houseRoofIndexes 1 ∧
      (houseRoofVertices : List (Vector3 α)).length = 8 ∧ houseRoofIndexes.length = 4 ∧
      HouseGeometryWellFormed (houseRoofVertices : List (Vector3 α)) houseRoofIndexes) ∧
    ((createHouseWindowsGeometry : BufferGeometry α) =
        createHouseGeometry houseWindowsVertices houseWindowsIndexes 1 ∧
      (houseWindowsVertices : List (Vector3 α)).length = 12 ∧ houseWindowsIndexes.length = 6 ∧
      HouseGeometryWellFormed (houseWindowsVertices : List (Vector3 α)) houseWindowsIndexes) := by
  refine ⟨⟨rfl, rfl, rfl, ?_⟩, ⟨rfl, rfl, rfl, ?_⟩, ⟨rfl, rfl, rfl, ?_⟩, ⟨rfl, rfl, rfl, ?_⟩,
    ⟨rfl, rfl, rfl, ?_⟩⟩
  · apply createHouseGeometry_wellFormed
    rw [show (houseWallsVertices : List (Vector3 α)).length = 47 from rfl]
    decide
  · apply createHouseGeometry_wellFormed
    rw [show (houseFramesVertices : List (Vector3 α)).length = 64 from rfl]
    decide
  · apply createHouseGeometry_wellFormed
    rw [show (houseDoorVertices : List (Vector3 α)).length = 4 from rfl]
    decide
  · apply createHouseGeometry_wellFormed
    rw [show (houseRoofVertices : List (Vector3 α)).length = 8 from rfl]
    decide
  · apply createHouseGeometry_wellFormed
    rw [show (houseWindowsVertices : List (Vector3 α)).length = 12 from rfl]
    decide

/-! ### Lookups in `GEOMETRY` and `MATERIAL` -/

theorem GEOMETRY_of_material_key (name : String) (h : name ∈ MATERIAL_KEYS) :
    GEOMETRY name = some (Geometry.table name) := by
  have hsub : ∀ n ∈ MATERIAL_KEYS, n ∈ GEOMETRY_KEYS := by decide
  unfold GEOMETRY
  rw [if_pos (hsub name h)]

theorem mem_MATERIAL_KEYS_of_some {name : String} {materials : List (String × Material)}
    (h : MATERIAL name = some materials) : name ∈ MATERIAL_KEYS := by
  unfold MATERIAL at h
  split at h
  · assumption
  · exact absurd h (by simp)

/-- The mesh `createNamedMesh` registers while the active mode is one of the four. -/
theorem createNamedMesh_mesh {α : Type} {name parent : String} {s s' : State α}
    (hmode : s.activeMaterial ∈ SHADING_MODES) (h : createNamedMesh name parent s = some s') :
    ∃ mesh : Mesh, s' = { s with meshes := s.meshes ++ [mesh] } ∧ mesh.name = name ∧
      MATERIAL name = some mesh.materials ∧ mesh.geometry = Geometry.table name ∧
      mesh.material = some (Material.table name s.activeMaterial) := by
  unfold createNamedMesh at h
  split at h
  · exact absurd h (by simp)
  · rename_i materials hm
    refine ⟨_, (Option.some.inj h).symm, rfl, hm, ?_, ?_⟩
    · show (GEOMETRY name).getD Geometry.fallback = _
      rw [GEOMETRY_of_material_key name (mem_MATERIAL_KEYS_of_some hm)]
      rfl
    · show some ((materials.lookup s.activeMaterial).getD Material.fallback) = _
      rw [MATERIAL_eq_some hm, materialEntry_lookup _ _ hmode]
      rfl

theorem meshesDefined_createNamedMesh {α : Type} {name parent : String} {s s' : State α}
    (hmode : s.activeMaterial ∈ SHADING_MODES) (hd : MeshesDefined s)
    (h : createNamedMesh name parent s = some s') :
    s'.activeMaterial ∈ SHADING_MODES ∧ MeshesDefined s' := by
  obtain ⟨mesh, rfl, hname, htable, hgeo, hmat⟩ := createNamedMesh_mesh hmode h
  refine ⟨hmode, fun m hm => ?_⟩
  rcases List.mem_append.1 hm with hm | hm
  · exact hd m hm
  · rw [List.mem_singleton.1 hm, hname]
    exact ⟨mem_MATERIAL_KEYS_of_some htable, hgeo, s.activeMaterial, hmode, hmat⟩

theorem meshesDefined_createTree {α : Type} {s : State α}
    (hmode : s.activeMaterial ∈ SHADING_MODES) (hd : MeshesDefined s) :
    ∃ s', createTree s = some s' ∧ s'.activeMaterial ∈ SHADING_MODES ∧ MeshesDefined s' := by
  unfold createTree
  obtain ⟨s1, e1⟩ := Option.isSome_iff_exists.1
    (createNamedMesh_isSome "treeFirstBranch" "tree" s (by decide))
  obtain ⟨s2, e2⟩ := Option.isSome_iff_exists.1
    (createNamedMesh_isSome "treeSecondBranch" "tree" s1 (by decide))
  obtain ⟨s3, e3⟩ := Option.isSome_iff_exists.1
    (createNamedMesh_isSome "treeCanopy" "tree" s2 (by decide))
  obtain ⟨s4, e4⟩ := Option.isSome_iff_exists.1
    (createNamedMesh_isSome "treeCanopy" "tree" s3 (by decide))
  obtain ⟨m1, d1⟩ := meshesDefined_createNamedMesh hmode hd e1
  obtain ⟨m2, d2⟩ := meshesDefined_createNamedMesh m1 d1 e2
  obtain ⟨m3, d3⟩ := meshesDefined_createNamedMesh m2 d2 e3
  obtain ⟨m4, d4⟩ := meshesDefined_createNamedMesh m3 d3 e4
  exact ⟨s4, by simp [e1, e2, e3, e4], m4, d4⟩

theorem meshesDefined_createTreeAt {α : Type} [LinearOrderedField α]
    (intersect : α → α → Option (Vector3 α)) (pos : α × α) {s : State α}
    (hmode : s.activeMaterial ∈ SHADING_MODES) (hd : MeshesDefined s) :
    ∃ s', createTreeAt intersect s pos = some s' ∧ s'.activeMaterial ∈ SHADING_MODES ∧
      MeshesDefined s' := by
  unfold createTreeAt
  split
  · exact ⟨s, rfl, hmode, hd⟩
  · rename_i groundPt hg
    obtain ⟨s1, e1, m1, d1⟩ := meshesDefined_createTree hmode hd
    exact ⟨{ s1 with
        treeGroups := s1.treeGroups ++ [⟨groundPt.x, groundPt.y + 1 / 100, groundPt.z⟩] },
      by simp [e1], m1, d1⟩

theorem meshesDefined_foldlM_createTreeAt {α : Type} [LinearOrderedField α]
    (intersect : α → α → Option (Vector3 α)) (positions : List (α × α)) :
    ∀ {s : State α}, s.activeMaterial ∈ SHADING_MODES → MeshesDefined s →
      ∃ s', positions.foldlM (createTreeAt intersect) s = some s' ∧
        s'.activeMaterial ∈ SHADING_MODES ∧ MeshesDefined s' := by
  induction positions with
  | nil => exact fun {s} hmode hd => ⟨s, rfl, hmode, hd⟩
  | cons pos rest ih =>
    intro s hmode hd
    obtain ⟨s1, e1, m1, d1⟩ := meshesDefined_createTreeAt intersect pos hmode hd
    obtain ⟨s2, e2, m2, d2⟩ := ih m1 d1
    exact ⟨s2, by simp [List.foldlM, e1, e2], m2, d2⟩

theorem meshesDefined_createSoil {α : Type} [LinearOrderedField α]
    (intersect : α → α → Option (Vector3 α)) {s : State α}
    (hmode : s.activeMaterial ∈ SHADING_MODES) (hd : MeshesDefined s) :
    ∃ s', createSoil intersect s = some s' ∧ MeshesDefined s' := by
  have hd1 : MeshesDefined { s with
      soilGeometry := true
      soilTexture := some s.textureCount
      textureCount := s.textureCount + 1
      soil := some { map := some s.textureCount, children := [] } } := hd
  obtain ⟨s', e, -, d'⟩ := meshesDefined_foldlM_createTreeAt intersect treePositions
    (s := { s with
      soilGeometry := true
      soilTexture := some s.textureCount
      textureCount := s.textureCount + 1
      soil := some { map := some s.textureCount, children := [] } }) hmode hd1
  exact ⟨s', by unfold createSoil createTrees; exact e, d'⟩

theorem onKeyDown_meshes {α : Type} (key : String) (s : State α) :
    (onKeyDown key s).meshes = s.meshes := by
  rcases key_cases key with k | k | k | k | k | k | k | k | k | k
  · rw [onKeyDown_d key s k]; rfl
  · rw [onKeyDown_s key s k]; rfl
  · rw [onKeyDown_p key s k]; rfl
  · rw [onKeyDown_1 key s k]
    cases hr : onKeyDown1 { s with keysPressed := keysAdd key s.keysPressed } with
    | none => rfl
    | some s' =>
      obtain ⟨soil, -, rfl⟩ := onKeyDown1_some hr
      rfl
  · rw [onKeyDown_2 key s k]
    cases hr : onKeyDown2 { s with keysPressed := keysAdd key s.keysPressed } with
    | none => rfl
    | some s' =>
      obtain ⟨sky, -, rfl⟩ := onKeyDown2_some hr
      rfl
  · rw [onKeyDown_w key s k]
  · rw [onKeyDown_q key s k]
  · rw [onKeyDown_e key s k]
  · rw [onKeyDown_r key s k]
  · rw [onKeyDown_other key s k]

theorem update_meshes {α : Type} [LinearOrderedField α] (M : JsMath α) (timeDelta : α)
    (s : State α) : (update M timeDelta s).meshes = (updateMaterials s).meshes := by
  unfold update
  dsimp only
  rw [handleUfoMovement_eq]
  show (updateActiveCamera (updateProjection (updateMaterials s))).meshes = _
  have h : ∀ t : State α, (updateActiveCamera t).meshes = t.meshes := by
    intro t
    unfold updateActiveCamera
    split <;> rfl
  rw [h, updateProjection_eq]

theorem meshesDefined_step {α : Type} [LinearOrderedField α] (M : JsMath α) (s : State α)
    (e : Event α) (h : Inv s ∧ MeshesDefined s) :
    Inv (step M s e) ∧ MeshesDefined (step M s e) := by
  refine ⟨inv_step M s e h.1, ?_⟩
  obtain ⟨hi, hd⟩ := h
  cases e with
  | keydown key =>
    show MeshesDefined (onKeyDown key s)
    unfold MeshesDefined
    rw [onKeyDown_meshes]
    exact hd
  | keyup key => exact hd
  | resize w h' => exact hd
  | frame timeDelta =>
    show MeshesDefined (update M timeDelta s)
    unfold MeshesDefined
    rw [update_meshes, updateMaterials_eq]
    intro m hm
    change m ∈ (if s.newMaterial then _ else _) at hm
    split at hm
    · obtain ⟨m0, hm0, rfl⟩ := List.mem_map.1 hm
      refine ⟨(hd m0 hm0).1, (hd m0 hm0).2.1, s.activeMaterial, hi.mode, ?_⟩
      show m0.materials.lookup s.activeMaterial = _
      rw [MATERIAL_eq_some (hi.table m0 hm0), materialEntry_lookup _ _ hi.mode]
    · exact hd m hm
  | soilLoaded intersect =>
    show MeshesDefined (if s.soilGeometry then s else (createSoil intersect s).getD s)
    split
    · exact hd
    · obtain ⟨s', e, d'⟩ := meshesDefined_createSoil intersect hi.mode hd
      rw [e]
      exact d'
  | xrSession presenting => exact hd

theorem meshesDefined_initialState {α : Type} [LinearOrderedField α] (w h : Nat) :
    MeshesDefined (initialState w h : State α) := by
  have hmeshes : (initialState w h : State α).meshes = (initialState 0 0 : State ℚ).meshes :=
    rfl
  unfold MeshesDefined
  rw [hmeshes]
  decide

theorem meshesDefined_run {α : Type} [LinearOrderedField α] (M : JsMath α) (w h : Nat)
    (events : List (Event α)) : MeshesDefined (run M events (initialState w h)) :=
  (run_induction M (fun s => Inv s ∧ MeshesDefined s) (meshesDefined_step M) events _
    ⟨inv_initialState w h, meshesDefined_initialState w h⟩).2

/-- C17: for each of the thirteen names the program calls `createNamedMesh` with,
`GEOMETRY[name]` is defined and `MATERIAL[name]` holds a material for each of the four
shading modes; so `createNamedMesh` under one of these names, in a state whose active mode
is one of the four, registers a mesh with that geometry and with the material of the active
mode; and in every state the page reaches, every registered mesh has one of these names, the
geometry stored under its name and one of the four materials stored under its name, never
`undefined` and never a constructor default. -/
theorem createNamedMesh_never_looks_up_missing_entry {α : Type} [LinearOrderedField α]
    (M : JsMath α) (w h : Nat) :
    (∀ name ∈ ["moon", "ufoDisc", "ufoCockpit", "ufoLight", "ufoSphereLight", "houseWalls",
        "houseFrames", "houseDoor", "houseRoof", "houseWindows", "treeFirstBranch",
        "treeSecondBranch", "treeCanopy"],
      GEOMETRY name = some (Geometry.table name) ∧
      ∀ mode ∈ ["basic", "gouraud", "phong", "toon"],
        ((MATERIAL name).bind fun materials => materials.lookup mode) =
          some (Material.table name mode)) ∧
    (∀ (s : State α) (name parent : String),
      name ∈ ["moon", "ufoDisc", "ufoCockpit", "ufoLight", "ufoSphereLight", "houseWalls",
        "houseFrames", "houseDoor", "houseRoof", "houseWindows", "treeFirstBranch",
        "treeSecondBranch", "treeCanopy"] →
      s.activeMaterial ∈ ["basic", "gouraud", "phong", "toon"] →
      ∃ mesh : Mesh, createNamedMesh name parent s = some { s with meshes := s.meshes ++ [mesh] } ∧
        mesh.geometry = Geometry.table name ∧
        mesh.material = some (Material.table name s.activeMaterial)) ∧
    (∀ (events : List (Event α)), ∀ mesh ∈ (run M events (initialState w h)).meshes,
      mesh.name ∈ ["moon", "ufoDisc", "ufoCockpit", "ufoLight", "ufoSphereLight", "houseWalls",
        "houseFrames", "houseDoor", "houseRoof", "houseWindows", "treeFirstBranch",
        "treeSecondBranch", "treeCanopy"] ∧
      mesh.geometry = Geometry.table mesh.name ∧
      ∃ mode ∈ ["basic", "gouraud", "phong", "toon"],
        mesh.material = some (Material.table mesh.name mode)) := by
  have hkeys : ∀ name : String,
      name ∈ ["moon", "ufoDisc", "ufoCockpit", "ufoLight", "ufoSphereLight", "houseWalls",
        "houseFrames", "houseDoor", "houseRoof", "houseWindows", "treeFirstBranch",
        "treeSecondBranch", "treeCanopy"] ↔ name ∈ MATERIAL_KEYS := by
    intro name
    simp only [MATERIAL_KEYS, List.mem_cons, List.mem_singleton, List.not_mem_nil, or_false]
    tauto
  refine ⟨by decide, ?_, ?_⟩
  · intro s name parent hname hmode
    obtain ⟨s', e⟩ := Option.isSome_iff_exists.1
      (createNamedMesh_isSome name parent s ((hkeys name).1 hname))
    obtain ⟨mesh, rfl, -, -, hgeo, hmat⟩ := createNamedMesh_mesh hmode e
    exact ⟨mesh, e, hgeo, hmat⟩
  · intro events mesh hmesh
    obtain ⟨hname, hgeo, hmat⟩ := meshesDefined_run M w h events mesh hmesh
    exact ⟨(hkeys _).2 hname, hgeo, hmat⟩

/-- C17 at concrete inputs: the lookups for `treeCanopy` in mode `toon`, and a `houseRoof`
mesh created in the initial state. -/
theorem createNamedMesh_never_looks_up_missing_entry_witness :
    GEOMETRY "treeCanopy" = some (Geometry.table "treeCanopy") ∧
    ((MATERIAL "treeCanopy").bind fun materials => materials.lookup "toon") =
      some (Material.table "treeCanopy" "toon") ∧
    (∃ mesh : Mesh, createNamedMesh "houseRoof" "house" (initialState 800 600 : State ℚ) =
        some { (initialState 800 600 : State ℚ) with
          meshes := (initialState 800 600 : State ℚ).meshes ++ [mesh] } ∧
      mesh.geometry = Geometry.table "houseRoof" ∧
      mesh.material = some (Material.table "houseRoof"
        (initialState 800 600 : State ℚ).activeMaterial)) :=
  ⟨((createNamedMesh_never_looks_up_missing_entry ratMath 800 600).1 "treeCanopy"
      (by decide)).1,
   ((createNamedMesh_never_looks_up_missing_entry ratMath 800 600).1 "treeCanopy"
      (by decide)).2 "toon" (by decide),
   (createNamedMesh_never_looks_up_missing_entry ratMath 800 600).2.1
      (initialState 800 600) "houseRoof" "house" (by decide) (by decide)⟩

end CG
